import Mathlib

/-
  Verification of the Posture-Detection repository's decision layer.

  Shallow embedding of:
    - posture_analyzer.py  (geometry metric functions, PostureAnalyzer window/alert logic)
    - posture_agent.py     (PostureAgent session/warning state machine)
    - pc_lock_manager.py   (PCLockManager absence/acknowledgment timer)

  Modelling conventions:
    - Wall-clock instants and durations are rationals (Python floats carry exact
      decimal values in all scenarios of interest; no float rounding is modelled).
    - The transcendental kernels degrees(arccos(clip(dot/norm))) and
      degrees(atan2(|dy|,|dx|)) of the geometry are abstracted as function
      parameters: every property proved here (the error/guard paths) holds for
      an arbitrary such kernel, which is exactly what the claims about missing
      keypoints assert.
    - Fallible indexing (Python IndexError caught by try/except) becomes Option
      lookup with the caught-exception branch returning 0, as the source does.
-/

namespace PostureDetection

/-! ## Geometry: metric functions of posture_analyzer.py

A keypoint is the first two coordinates of one pose-estimator row
(`keypoints[idx][:2]` in the source). A keypoint array is a list of such rows;
`kps.get? i = none` models an out-of-range index, which in the source raises
IndexError and is caught, yielding 0 for the metric. -/

/-- One 2-D keypoint: (x, y) in frame pixel space. -/
abbrev Kp := ℚ × ℚ

/-- Landmark indices used by the metric functions (class constants of
PostureAnalyzer). -/
def NOSE : ℕ := 0
def LEFT_EAR : ℕ := 7
def RIGHT_EAR : ℕ := 8
def LEFT_SHOULDER : ℕ := 11
def RIGHT_SHOULDER : ℕ := 12
def LEFT_HIP : ℕ := 23
def RIGHT_HIP : ℕ := 24

/-- Midpoint of two keypoints, e.g. (left_ear + right_ear) / 2. -/
def midKp (a b : Kp) : Kp := ((a.1 + b.1) / 2, (a.2 + b.2) / 2)

/-- Vector difference of two keypoints. -/
def subKp (a b : Kp) : Kp := (a.1 - b.1, a.2 - b.2)

/-- calculate_neck_tilt_angle: angle between the shoulder-midpoint to
ear-midpoint vector and the vertical axis.  The transcendental kernel
degrees(arccos(clip(dot(v,(0,-1)) / norm(v), -1, 1))) is the parameter
angleFromVertical; the source's norms == 0 guard is the test that the vector
is (0,0), and any missing landmark (IndexError) yields 0. -/
def calculateNeckTiltAngle (angleFromVertical : Kp → ℚ) (kps : List Kp) : ℚ :=
  match kps.get? LEFT_EAR, kps.get? RIGHT_EAR,
        kps.get? LEFT_SHOULDER, kps.get? RIGHT_SHOULDER with
  | some le, some re, some ls, some rs =>
      let earCenter := midKp le re
      let shoulderCenter := midKp ls rs
      let neckVector := subKp earCenter shoulderCenter
      if neckVector = (0, 0) then 0 else angleFromVertical neckVector
  | _, _, _, _ => 0

/-- calculate_head_pitch: if the nose is vertically below the ear midpoint
(positive y difference, image coordinates), the angle of the nose-minus-ear
vector from horizontal, degrees(atan2(|dy|,|dx|)) abstracted as degAtan2;
otherwise 0.  Any missing landmark yields 0. -/
def calculateHeadPitch (degAtan2 : ℚ → ℚ → ℚ) (kps : List Kp) : ℚ :=
  match kps.get? NOSE, kps.get? LEFT_EAR, kps.get? RIGHT_EAR with
  | some nose, some le, some re =>
      let earCenter := midKp le re
      let headVector := subKp nose earCenter
      if 0 < headVector.2 then degAtan2 |headVector.2| |headVector.1| else 0
  | _, _, _ => 0

/-- calculate_torso_lean: angle between the hip-midpoint to shoulder-midpoint
vector and the vertical axis; same kernel shape as neck tilt. -/
def calculateTorsoLeanAngle (angleFromVertical : Kp → ℚ) (kps : List Kp) : ℚ :=
  match kps.get? LEFT_SHOULDER, kps.get? RIGHT_SHOULDER,
        kps.get? LEFT_HIP, kps.get? RIGHT_HIP with
  | some ls, some rs, some lh, some rh =>
      let shoulderCenter := midKp ls rs
      let hipCenter := midKp lh rh
      let torsoVector := subKp shoulderCenter hipCenter
      if torsoVector = (0, 0) then 0 else angleFromVertical torsoVector
  | _, _, _, _ => 0

/-- calculate_shoulder_asymmetry: absolute vertical pixel difference between
the shoulder keypoints. -/
def calculateShoulderAsymmetry (kps : List Kp) : ℚ :=
  match kps.get? LEFT_SHOULDER, kps.get? RIGHT_SHOULDER with
  | some ls, some rs => |ls.2 - rs.2|
  | _, _ => 0

/-! ## PostureAnalyzer: window, per-sample violations, debounced alert -/

/-- PostureMetrics dataclass. -/
structure PostureMetrics where
  neckTiltAngle : ℚ
  headPitch : ℚ
  torsoLeanAngle : ℚ
  shoulderAsymmetry : ℚ
  timestamp : ℚ
  deriving Repr, DecidableEq

/-- PostureThresholds dataclass with its default values. -/
structure PostureThresholds where
  neckTiltThreshold : ℚ := 20
  headPitchThreshold : ℚ := 30
  torsoLeanAngleThreshold : ℚ := 15
  shoulderAsymmetryThreshold : ℚ := 8
  badPostureDurationThreshold : ℚ := 3
  goodPostureRequiredDuration : ℚ := 5
  deriving Repr, DecidableEq

/-- The per-sample violation verdicts (the dict returned by is_bad_posture). -/
structure Violations where
  neckTilt : Bool
  headPitch : Bool
  torsoLeanAngle : Bool
  shoulderAsymmetry : Bool
  deriving Repr, DecidableEq

/-- any(violations.values()) in the source. -/
def Violations.anyViol (v : Violations) : Bool :=
  v.neckTilt || v.headPitch || v.torsoLeanAngle || v.shoulderAsymmetry

/-- is_bad_posture: compare each metric against its threshold (strict >). -/
def isBadPosture (th : PostureThresholds) (m : PostureMetrics) : Violations where
  neckTilt := th.neckTiltThreshold < m.neckTiltAngle
  headPitch := th.headPitchThreshold < m.headPitch
  torsoLeanAngle := th.torsoLeanAngleThreshold < m.torsoLeanAngle
  shoulderAsymmetry := th.shoulderAsymmetryThreshold < m.shoulderAsymmetry

/-- Per-metric violation percentages (the dict built by should_trigger_alert). -/
structure ViolationPcts where
  neckTilt : ℚ
  headPitch : ℚ
  torsoLeanAngle : ℚ
  shoulderAsymmetry : ℚ
  deriving Repr, DecidableEq

/-- Mutable state of a PostureAnalyzer instance (the fields set in init
that the alert logic reads or writes). -/
structure AnalyzerState where
  windowSize : ℕ := 150
  fps : ℕ := 30
  metricsWindow : List PostureMetrics := []
  thresholds : PostureThresholds := {}
  lastBadPostureTime : ℚ := 0
  lastNotificationTime : ℚ := 0
  cooldownDuration : ℚ := 300
  deriving Repr, DecidableEq

/-- deque(maxlen=window_size) append: evict the oldest sample on overflow.
The list is ordered oldest first. -/
def windowAppend (maxlen : ℕ) (w : List PostureMetrics) (m : PostureMetrics) :
    List PostureMetrics :=
  if w.length < maxlen then w ++ [m] else w.tail ++ [m]

/-- analyze_keypoints, window bookkeeping only: append the computed metrics
sample to the bounded window. -/
def analyzeAppend (st : AnalyzerState) (m : PostureMetrics) : AnalyzerState :=
  { st with metricsWindow := windowAppend st.windowSize st.metricsWindow m }

/-- The samples of the window whose timestamp lies within the last
bad_posture_duration_threshold seconds (recent_metrics in the source). -/
def recentMetrics (st : AnalyzerState) (now : ℚ) : List PostureMetrics :=
  st.metricsWindow.filter
    (fun m => now - st.thresholds.badPostureDurationThreshold ≤ m.timestamp)

/-- Count of samples in a list violating one chosen metric. -/
def violCount (th : PostureThresholds) (sel : Violations → Bool)
    (l : List PostureMetrics) : ℕ :=
  (l.filter (fun m => sel (isBadPosture th m))).length

/-- The violation-percentage dict: (count / total_samples) * 100 per metric. -/
def violationPcts (th : PostureThresholds) (l : List PostureMetrics) :
    ViolationPcts where
  neckTilt := (violCount th (·.neckTilt) l : ℚ) / l.length * 100
  headPitch := (violCount th (·.headPitch) l : ℚ) / l.length * 100
  torsoLeanAngle := (violCount th (·.torsoLeanAngle) l : ℚ) / l.length * 100
  shoulderAsymmetry := (violCount th (·.shoulderAsymmetry) l : ℚ) / l.length * 100

/-- any(percentage >= 60 for percentage in violation_percentages.values()). -/
def somePctAtLeast60 (p : ViolationPcts) : Prop :=
  60 ≤ p.neckTilt ∨ 60 ≤ p.headPitch ∨ 60 ≤ p.torsoLeanAngle ∨ 60 ≤ p.shoulderAsymmetry

instance (p : ViolationPcts) : Decidable (somePctAtLeast60 p) := by
  unfold somePctAtLeast60; infer_instance

/-- should_trigger_alert.  Returns (fired, percentages, updated state);
percentages is none for the source's early returns of an empty dict. -/
def shouldTriggerAlert (st : AnalyzerState) (now : ℚ) :
    Bool × Option ViolationPcts × AnalyzerState :=
  if st.metricsWindow.length < st.fps * 2 then (false, none, st)
  else
    let recent := recentMetrics st now
    if recent = [] then (false, none, st)
    else
      let pcts := violationPcts st.thresholds recent
      if somePctAtLeast60 pcts ∧ st.cooldownDuration < now - st.lastNotificationTime
      then (true, some pcts,
            { st with lastBadPostureTime := now, lastNotificationTime := now })
      else (false, some pcts, st)

/-- One externally driven operation on a PostureAnalyzer: either a processed
frame appending a metrics sample, or a should_trigger_alert query at a given
instant. -/
inductive AnalyzerOp where
  | analyze (m : PostureMetrics)
  | alertQuery (now : ℚ)
  deriving Repr, DecidableEq

/-- Run a sequence of operations, collecting the instants at which
should_trigger_alert returned true (in order). -/
def runAnalyzer (st : AnalyzerState) : List AnalyzerOp → AnalyzerState × List ℚ
  | [] => (st, [])
  | .analyze m :: ops => runAnalyzer (analyzeAppend st m) ops
  | .alertQuery now :: ops =>
      match shouldTriggerAlert st now with
      | (fired, _, st1) =>
          match runAnalyzer st1 ops with
          | (sf, fires) => (sf, (if fired then [now] else []) ++ fires)

/-! ## PostureAgent: session lifecycle and warning escalation
(posture_agent.py)

process_posture_update reads time.time() once per call; the model threads that
instant as now.  The external conditions of should_be_active (work hours,
manual disable, AC power) are abstracted as the boolean input shouldActive of
each update.  The sqlite database is modelled as the list of closed-session
records the source inserts. -/

/-- PostureState enum.  warning is declared by the source but never assigned
to current_state. -/
inductive PostureState where
  | good
  | warning
  | bad
  deriving Repr, DecidableEq

/-- PostureEvent dataclass. -/
structure PostureEvent where
  timestamp : ℚ
  state : PostureState
  metrics : PostureMetrics
  violations : Violations
  duration : ℚ
  deriving Repr, DecidableEq

/-- The open WorkSession (end_time still null). -/
structure OpenSession where
  startTime : ℚ
  totalWarnings : ℕ := 0
  events : List PostureEvent := []
  deriving Repr, DecidableEq

/-- One row of the work_sessions table as inserted by end_session. -/
structure ClosedSession where
  startTime : ℚ
  endTime : ℚ
  totalBadPostureDuration : ℚ
  totalWarnings : ℕ
  deriving Repr, DecidableEq

/-- Mutable state of a PostureAgent instance. -/
structure Agent where
  currentSession : Option OpenSession := none
  currentState : PostureState := .good
  lastStateChange : ℚ
  badPostureAccumulator : ℚ := 0
  warningThresholds : List ℚ := [15, 45, 120]
  lastWarningLevel : ℤ := -1
  isActive : Bool := false
  closedSessions : List ClosedSession := []
  deriving Repr, DecidableEq

/-- A fresh agent constructed at instant t0 (init sets last_state_change to
time.time()). -/
def initAgent (t0 : ℚ) : Agent := { lastStateChange := t0 }

/-- end_session: no-op without an open session; otherwise finalize end_time
and total_bad_posture_duration, insert the row, clear the session and
deactivate. -/
def endSession (s : Agent) (now : ℚ) : Agent :=
  match s.currentSession with
  | none => s
  | some sess =>
      { s with
        currentSession := none
        isActive := false
        closedSessions := s.closedSessions ++
          [{ startTime := sess.startTime
             endTime := now
             totalBadPostureDuration := s.badPostureAccumulator
             totalWarnings := sess.totalWarnings }] }

/-- start_session: close any open session first, then open a fresh
WorkSession, reset the accumulator and warning level, and activate.
current_state and last_state_change are NOT touched (this is the source
behaviour that claim C1 turns on). -/
def startSession (s : Agent) (now : ℚ) : Agent :=
  let s := if s.currentSession.isSome then endSession s now else s
  { s with
    currentSession := some { startTime := now }
    badPostureAccumulator := 0
    lastWarningLevel := -1
    isActive := true }

/-- min_state_duration in process_posture_update. -/
def minStateDuration : ℚ := 2

/-- The new_state verdict of process_posture_update: BAD iff any violation. -/
def verdict (v : Violations) : PostureState :=
  if v.anyViol then .bad else .good

/-- The event the qualifying-transition branch appends: it describes the
completed state (the one being left), anchored at its start instant. -/
def completedEvent (s : Agent) (now : ℚ) (m : PostureMetrics)
    (v : Violations) : PostureEvent :=
  { timestamp := s.lastStateChange
    state := s.currentState
    metrics := m
    violations := v
    duration := now - s.lastStateChange }

/-- Body of the qualifying-transition branch: flush the elapsed duration into
the accumulator when leaving BAD, append the event to the open session, then
update current_state and last_state_change. -/
def recordTransition (s : Agent) (now : ℚ) (m : PostureMetrics)
    (v : Violations) : Agent :=
  { s with
    badPostureAccumulator :=
      if s.currentState = .bad then
        s.badPostureAccumulator + (now - s.lastStateChange)
      else s.badPostureAccumulator
    currentSession := s.currentSession.map
      (fun sess => { sess with events := sess.events ++ [completedEvent s now m v] })
    currentState := verdict v
    lastStateChange := now }

/-- The state-transition block of process_posture_update (the debounced
GOOD/BAD tracking with event emission). -/
def transitionStep (s : Agent) (now : ℚ) (m : PostureMetrics)
    (v : Violations) : Agent :=
  if verdict v ≠ s.currentState ∧ minStateDuration ≤ now - s.lastStateChange then
    recordTransition s now m v
  else if verdict v ≠ s.currentState then
    { s with currentState := verdict v, lastStateChange := now }
  else s

/-- The warning loop: first threshold index i with
current_bad_duration >= thresholds[i] and i > last_warning_level (the Python
for/break).  Returns none when no index fires. -/
def findWarningLevelFrom (lastLevel : ℤ) (badDuration : ℚ) :
    List ℚ → ℕ → Option ℕ
  | [], _ => none
  | t :: rest, i =>
      if t ≤ badDuration ∧ lastLevel < (i : ℤ) then some i
      else findWarningLevelFrom lastLevel badDuration rest (i + 1)

/-- The enumerate loop starts at index 0. -/
def findWarningLevel (thresholds : List ℚ) (lastLevel : ℤ) (badDuration : ℚ) :
    Option ℕ :=
  findWarningLevelFrom lastLevel badDuration thresholds 0

/-- Body of a firing warning: record the fired level and increment the open
session's warning count. -/
def fireWarning (s : Agent) (i : ℕ) : Agent :=
  { s with
    lastWarningLevel := (i : ℤ)
    currentSession := s.currentSession.map
      (fun sess => { sess with totalWarnings := sess.totalWarnings + 1 }) }

/-- Body of the sustained-good recovery branch: reset the warning level and
decay the accumulator by the sustained-good duration, floored at 0. -/
def applyGoodDecay (s : Agent) (now : ℚ) : Agent :=
  { s with
    lastWarningLevel := -1
    badPostureAccumulator :=
      max 0 (s.badPostureAccumulator - (now - s.lastStateChange)) }

/-- The warning / recovery block of process_posture_update, run after the
transition block.  Returns the updated agent and the fired warning level
(some i exactly when a notification message is generated). -/
def warningStep (s : Agent) (now : ℚ) : Agent × Option ℕ :=
  if s.currentState = .bad then
    match findWarningLevel s.warningThresholds s.lastWarningLevel
        (s.badPostureAccumulator + (now - s.lastStateChange)) with
    | some i => (fireWarning s i, some i)
    | none => (s, none)
  else
    if 0 ≤ s.lastWarningLevel ∧ 10 < now - s.lastStateChange then
      (applyGoodDecay s now, none)
    else (s, none)

/-- process_posture_update: activity gating, then state transition, then
warning escalation / recovery decay.  Returns the updated agent and the fired
warning level (the notification message proxy). -/
def processPostureUpdate (s : Agent) (now : ℚ) (m : PostureMetrics)
    (v : Violations) (shouldActive : Bool) : Agent × Option ℕ :=
  if ¬ shouldActive then
    (if s.isActive then endSession s now else s, none)
  else
    warningStep
      (transitionStep (if ¬ s.isActive then startSession s now else s) now m v) now

/-- One update record handed to the agent: the instant, the frame's metrics
and violation verdicts, and the should_be_active evaluation. -/
structure UpdateIn where
  now : ℚ
  metrics : PostureMetrics
  violations : Violations
  shouldActive : Bool
  deriving Repr, DecidableEq

/-- Run a sequence of updates, collecting fired warnings as (instant, level)
pairs in order. -/
def runAgent (s : Agent) : List UpdateIn → Agent × List (ℚ × ℕ)
  | [] => (s, [])
  | u :: us =>
      match processPostureUpdate s u.now u.metrics u.violations u.shouldActive with
      | (s1, r) =>
          match runAgent s1 us with
          | (sf, fires) =>
              (sf, (match r with | some i => [(u.now, i)] | none => []) ++ fires)

/-! ## PCLockManager: absence / acknowledgment timer (pc_lock_manager.py)

The manager's mutable fields are shared between the caller of
update_person_presence and the background absence-timer thread.  The model is
an interleaving semantics: the timer thread is a small-step program (its
program counter is TimerPhase, one tick = one poll iteration or one exit
path), and each trace action is a contiguous run of Python statements that
executes without the other thread intervening.  A non-debounced
update_person_presence(True) call is either the single atomic action
presence now true ext, or - when the timer thread interleaves inside the
call - the pair presenceTrueSetHalf (the statements through
self.pc_locked = False) followed by presenceTrueResetHalf (the trailing
if self.lock_timer_active: self.reset_timer()).  The ground-truth
is_workstation_locked answer is the ext input of each action.  lockCalls
counts invocations of lock_pc, i.e. of the lock actuator. -/

/-- Shared mutable fields of a PCLockManager instance. -/
structure LockMgr where
  isEnabled : Bool := false
  personAbsentThreshold : ℚ := 10
  lockTimeout : ℚ := 30
  personPresent : Bool := true
  lastPersonDetected : ℚ := 0
  notificationShown : Bool := false
  lockTimerActive : Bool := false
  pcLocked : Bool := false
  lastPersonDetectedState : Option Bool := none
  lockCalls : ℕ := 0
  deriving Repr, DecidableEq

/-- Program counter of the absence-timer thread: not running, in the absence
poll loop, or in the acknowledgment countdown loop. -/
inductive TimerPhase where
  | idle
  | waiting
  | countdown
  deriving Repr, DecidableEq

/-- A manager together with its (at most one) timer-thread execution.
startTime and countdownStart are the thread's local loop anchors. -/
structure LockSys where
  mgr : LockMgr := {}
  phase : TimerPhase := .idle
  startTime : ℚ := 0
  countdownStart : ℚ := 0
  deriving Repr, DecidableEq

/-- close_notification. -/
def closeNotification (m : LockMgr) : LockMgr :=
  { m with notificationShown := false }

/-- reset_timer: clear the active flag, then close the notification. -/
def resetTimer (m : LockMgr) : LockMgr :=
  closeNotification { m with lockTimerActive := false }

/-- check_windows_lock_status: reconcile the internal pc_locked belief with
the externally observed lock state; on newly detected lock, cancel a running
timer. -/
def checkWindowsLockStatus (m : LockMgr) (ext : Bool) : LockMgr :=
  if ext ∧ ¬ m.pcLocked then
    let m := { m with pcLocked := true }
    if m.lockTimerActive then resetTimer m else m
  else if ¬ ext ∧ m.pcLocked then { m with pcLocked := false }
  else m

/-- lock_pc: set the belief, cancel the timer, invoke the lock actuator. -/
def lockPc (m : LockMgr) : LockMgr :=
  resetTimer { m with pcLocked := true, lockCalls := m.lockCalls + 1 }

/-- start_absence_timer: a no-op while a thread execution is alive or any
guard fails; otherwise mark the timer active and spawn the thread. -/
def startAbsenceTimer (sys : LockSys) (now : ℚ) : LockSys :=
  if sys.phase ≠ .idle then sys
  else if ¬ sys.mgr.isEnabled ∨ sys.mgr.personPresent ∨ sys.mgr.pcLocked
       ∨ sys.mgr.lockTimerActive ∨ sys.mgr.notificationShown then sys
  else
    { sys with
      mgr := { sys.mgr with lockTimerActive := true }
      phase := .waiting
      startTime := now }

/-- update_person_presence, run atomically: reconciliation poll, debounce of
identical consecutive readings, then the presence-true reset or the
presence-false absence-timer start. -/
def updatePersonPresence (sys : LockSys) (now : ℚ) (detected ext : Bool) :
    LockSys :=
  let m := checkWindowsLockStatus sys.mgr ext
  if m.lastPersonDetectedState = some detected then { sys with mgr := m }
  else
    let m := { m with lastPersonDetectedState := some detected }
    if detected then
      let m := { m with personPresent := true, lastPersonDetected := now,
                        pcLocked := false }
      let m := if m.lockTimerActive then resetTimer m else m
      { sys with mgr := m }
    else
      if m.personPresent then
        let m := { m with personPresent := false }
        let sys := { sys with mgr := m }
        if m.isEnabled ∧ ¬ m.lockTimerActive ∧ ¬ m.notificationShown
           ∧ ¬ m.pcLocked
        then startAbsenceTimer sys now
        else sys
      else { sys with mgr := m }

/-- First half of a non-debounced update_person_presence(True) call: the
statements up to and including self.pc_locked = False. -/
def presenceTrueSetHalf (sys : LockSys) (now : ℚ) (ext : Bool) : LockSys :=
  let m := checkWindowsLockStatus sys.mgr ext
  if m.lastPersonDetectedState = some true then { sys with mgr := m }
  else
    { sys with mgr :=
        { m with lastPersonDetectedState := some true, personPresent := true,
                 lastPersonDetected := now, pcLocked := false } }

/-- Second half of that call: if self.lock_timer_active: self.reset_timer(). -/
def presenceTrueResetHalf (sys : LockSys) : LockSys :=
  { sys with mgr :=
      if sys.mgr.lockTimerActive then resetTimer sys.mgr else sys.mgr }

/-- The finally block of _absence_timer_thread followed by thread exit. -/
def threadExit (sys : LockSys) : LockSys :=
  { sys with
    mgr := closeNotification { sys.mgr with lockTimerActive := false }
    phase := .idle }

/-- One scheduler step of the absence-timer thread: one iteration of the
absence poll loop (with its reconciliation poll), the post-loop exit checks
plus notification display, one iteration of the countdown loop, or the final
flag check that issues the lock. -/
def timerTick (sys : LockSys) (now : ℚ) (ext : Bool) : LockSys :=
  match sys.phase with
  | .idle => sys
  | .waiting =>
      if now - sys.startTime < sys.mgr.personAbsentThreshold
         ∧ sys.mgr.lockTimerActive then
        let m := checkWindowsLockStatus sys.mgr ext
        if m.personPresent ∨ m.pcLocked then threadExit { sys with mgr := m }
        else { sys with mgr := m }
      else
        if ¬ sys.mgr.lockTimerActive ∨ sys.mgr.personPresent
           ∨ sys.mgr.pcLocked then threadExit sys
        else
          { sys with
            mgr := { sys.mgr with notificationShown := true }
            phase := .countdown
            countdownStart := now }
  | .countdown =>
      if now - sys.countdownStart < sys.mgr.lockTimeout
         ∧ sys.mgr.lockTimerActive ∧ sys.mgr.notificationShown then
        sys
      else
        if sys.mgr.lockTimerActive ∧ sys.mgr.notificationShown then
          threadExit { sys with mgr := lockPc sys.mgr }
        else threadExit sys

/-- acknowledge_presence: reset_timer then close_notification. -/
def acknowledgePresence (sys : LockSys) : LockSys :=
  { sys with mgr := closeNotification (resetTimer sys.mgr) }

/-- set_enabled. -/
def setEnabled (sys : LockSys) (b : Bool) : LockSys :=
  if b then { sys with mgr := { sys.mgr with isEnabled := true } }
  else
    { sys with mgr :=
        resetTimer { sys.mgr with isEnabled := false, pcLocked := false,
                                  lastPersonDetectedState := none } }

/-- One interleaved atomic action on the shared manager state. -/
inductive LockAct where
  | presence (now : ℚ) (detected ext : Bool)
  | presenceSetHalf (now : ℚ) (ext : Bool)
  | presenceResetHalf
  | tick (now : ℚ) (ext : Bool)
  | acknowledge
  | enable (b : Bool)
  deriving Repr, DecidableEq

/-- Apply one action. -/
def lockStep (sys : LockSys) : LockAct → LockSys
  | .presence now detected ext => updatePersonPresence sys now detected ext
  | .presenceSetHalf now ext => presenceTrueSetHalf sys now ext
  | .presenceResetHalf => presenceTrueResetHalf sys
  | .tick now ext => timerTick sys now ext
  | .acknowledge => acknowledgePresence sys
  | .enable b => setEnabled sys b

/-- Run a trace of interleaved actions. -/
def runLock (sys : LockSys) : List LockAct → LockSys
  | [] => sys
  | a :: acts => runLock (lockStep sys a) acts

/-- An action that reports the person absent (the only kind of action able to
start a new absence-timer execution). -/
def LockAct.reportsAbsent : LockAct → Prop
  | .presence _ detected _ => detected = false
  | _ => False

instance (a : LockAct) : Decidable a.reportsAbsent := by
  cases a <;> simp [LockAct.reportsAbsent] <;> infer_instance

/-! ## Auto-lock configuration plumbing of PostureAgent (claim C10) -/

/-- The auto-lock fields PostureAgent holds alongside its PCLockManager. -/
structure AgentAutoLock where
  autoLockEnabled : Bool := false
  personAbsentThreshold : ℚ := 10
  lockTimeout : ℚ := 30
  mgr : LockMgr := {}
  deriving Repr, DecidableEq

/-- PCLockManager.set_lock_timeout: clamp at 1.0 from below. -/
def mgrSetLockTimeout (m : LockMgr) (seconds : ℚ) : LockMgr :=
  { m with lockTimeout := max 1 seconds }

/-- PostureAgent.set_lock_timeout: record max(5.0, seconds) locally but
forward the unclamped value to the manager. -/
def agentSetLockTimeout (a : AgentAutoLock) (seconds : ℚ) : AgentAutoLock :=
  { a with lockTimeout := max 5 seconds, mgr := mgrSetLockTimeout a.mgr seconds }

/-- Keys of the merged status dict. -/
inductive StatusKey where
  | enabled
  | personAbsentThreshold
  | lockTimeout
  | personPresent
  | lastDetected
  | timerActive
  | notificationShown
  | pcLocked
  | absentThreshold
  deriving Repr, DecidableEq

/-- Values of the status dicts (booleans or seconds/instants). -/
inductive StatusVal where
  | b (v : Bool)
  | q (v : ℚ)
  deriving Repr, DecidableEq

/-- PCLockManager.get_status, in source key order. -/
def mgrStatus (m : LockMgr) : List (StatusKey × StatusVal) :=
  [(.enabled, .b m.isEnabled),
   (.personPresent, .b m.personPresent),
   (.lastDetected, .q m.lastPersonDetected),
   (.timerActive, .b m.lockTimerActive),
   (.notificationShown, .b m.notificationShown),
   (.pcLocked, .b m.pcLocked),
   (.absentThreshold, .q m.personAbsentThreshold),
   (.lockTimeout, .q m.lockTimeout)]

/-- PostureAgent.get_auto_lock_status: the agent's three entries followed by
the splatted manager status. -/
def agentAutoLockStatus (a : AgentAutoLock) : List (StatusKey × StatusVal) :=
  [(.enabled, .b a.autoLockEnabled),
   (.personAbsentThreshold, .q a.personAbsentThreshold),
   (.lockTimeout, .q a.lockTimeout)] ++ mgrStatus a.mgr

/-- Python dict-literal semantics: a later binding of a key overrides an
earlier one. -/
def dictGet (l : List (StatusKey × StatusVal)) (k : StatusKey) :
    Option StatusVal :=
  (l.reverse.find? (fun p => p.1 = k)).map (fun p => p.2)

/-! ## Claim C10: set_lock_timeout clamp mismatch and status-dict override -/

/-- Claim C10: for every s, PostureAgent.set_lock_timeout(s) records
max(5.0, s) as the agent's lock_timeout but forwards the unclamped s to
PCLockManager, whose effective timeout becomes max(1.0, s); hence for any s
with 1.0 <= s < 5.0 the agent's recorded value (5) and the manager's
effective countdown (s) disagree, and get_auto_lock_status reports the
manager's smaller value because the merged status dict lets the manager's
lock_timeout key override the agent's. -/
theorem C10_lock_timeout_clamp_divergence (a : AgentAutoLock) (s : ℚ)
    (h1 : 1 ≤ s) (h5 : s < 5) :
    (agentSetLockTimeout a s).lockTimeout = 5 ∧
    (agentSetLockTimeout a s).mgr.lockTimeout = s ∧
    dictGet (agentAutoLockStatus (agentSetLockTimeout a s)) .lockTimeout
      = some (.q s) ∧
    (agentSetLockTimeout a s).mgr.lockTimeout
      ≠ (agentSetLockTimeout a s).lockTimeout := by
  have hmax5 : max (5 : ℚ) s = 5 := max_eq_left h5.le
  have hmax1 : max (1 : ℚ) s = s := max_eq_right h1
  refine ⟨?_, ?_, ?_, ?_⟩
  · simp [agentSetLockTimeout, hmax5]
  · simp [agentSetLockTimeout, mgrSetLockTimeout, hmax1]
  · simp [dictGet, agentAutoLockStatus, mgrStatus, agentSetLockTimeout,
      mgrSetLockTimeout, List.find?, hmax1]
  · simp only [agentSetLockTimeout, mgrSetLockTimeout, hmax5, hmax1]
    exact fun h => absurd (h ▸ h5) (lt_irrefl 5)

/-- Witness for C10 at s = 2: the agent records 5, the manager runs with 2,
and the merged status dict reports 2. -/
theorem C10_lock_timeout_clamp_divergence_witness :
    (agentSetLockTimeout {} 2).lockTimeout = 5 ∧
    (agentSetLockTimeout {} 2).mgr.lockTimeout = 2 ∧
    dictGet (agentAutoLockStatus (agentSetLockTimeout {} 2)) .lockTimeout
      = some (.q 2) ∧
    (agentSetLockTimeout {} 2).mgr.lockTimeout
      ≠ (agentSetLockTimeout {} 2).lockTimeout :=
  C10_lock_timeout_clamp_divergence {} 2 (by norm_num) (by norm_num)

/-! ## Claim C4: missing or degenerate keypoint data degrades each metric to 0 -/

/-- Claim C4: for every keypoint array in which a required landmark index is
missing or out of range, or the derived vector is degenerate (zero length),
each of the four metric functions that depends on the missing data returns 0,
for any angle kernels (the total Lean functions also witness that no
computation raises). -/
theorem C4_missing_keypoints_give_zero (af : Kp → ℚ) (dat : ℚ → ℚ → ℚ)
    (kps : List Kp) :
    ((∃ i ∈ [LEFT_EAR, RIGHT_EAR, LEFT_SHOULDER, RIGHT_SHOULDER],
        kps.length ≤ i) → calculateNeckTiltAngle af kps = 0) ∧
    ((∃ i ∈ [NOSE, LEFT_EAR, RIGHT_EAR], kps.length ≤ i) →
        calculateHeadPitch dat kps = 0) ∧
    ((∃ i ∈ [LEFT_SHOULDER, RIGHT_SHOULDER, LEFT_HIP, RIGHT_HIP],
        kps.length ≤ i) → calculateTorsoLeanAngle af kps = 0) ∧
    ((∃ i ∈ [LEFT_SHOULDER, RIGHT_SHOULDER], kps.length ≤ i) →
        calculateShoulderAsymmetry kps = 0) ∧
    (∀ le re ls rs, kps.get? LEFT_EAR = some le → kps.get? RIGHT_EAR = some re →
        kps.get? LEFT_SHOULDER = some ls → kps.get? RIGHT_SHOULDER = some rs →
        subKp (midKp le re) (midKp ls rs) = (0, 0) →
        calculateNeckTiltAngle af kps = 0) ∧
    (∀ ls rs lh rh, kps.get? LEFT_SHOULDER = some ls →
        kps.get? RIGHT_SHOULDER = some rs → kps.get? LEFT_HIP = some lh →
        kps.get? RIGHT_HIP = some rh →
        subKp (midKp ls rs) (midKp lh rh) = (0, 0) →
        calculateTorsoLeanAngle af kps = 0) := by
  have hmaxidx : ∀ L : List ℕ, (∃ i ∈ L, kps.length ≤ i) →
      ∀ j ∈ L, (∀ x ∈ L, x ≤ j) → kps.get? j = none := by
    rintro L ⟨i, hi, hlen⟩ j _ hmax
    exact List.get?_eq_none.mpr (le_trans hlen (hmax i hi))
  refine ⟨?_, ?_, ?_, ?_, ?_, ?_⟩
  · intro hmiss
    have h12 : kps.get? RIGHT_SHOULDER = none :=
      hmaxidx _ hmiss RIGHT_SHOULDER (by simp) (by
        intro x hx
        simp only [LEFT_EAR, RIGHT_EAR, LEFT_SHOULDER, RIGHT_SHOULDER,
          List.mem_cons, List.not_mem_nil, or_false] at hx ⊢
        omega)
    cases h7 : kps.get? LEFT_EAR <;> cases h8 : kps.get? RIGHT_EAR <;>
      cases h11 : kps.get? LEFT_SHOULDER <;> cases h12' : kps.get? RIGHT_SHOULDER <;>
      first
        | (rw [h12] at h12'; exact Option.noConfusion h12')
        | simp only [calculateNeckTiltAngle, h7, h8, h11, h12']
  · intro hmiss
    have h8 : kps.get? RIGHT_EAR = none :=
      hmaxidx _ hmiss RIGHT_EAR (by simp) (by
        intro x hx
        simp only [NOSE, LEFT_EAR, RIGHT_EAR, List.mem_cons,
          List.not_mem_nil, or_false] at hx ⊢
        omega)
    cases h0 : kps.get? NOSE <;> cases h7 : kps.get? LEFT_EAR <;>
      cases h8' : kps.get? RIGHT_EAR <;>
      first
        | (rw [h8] at h8'; exact Option.noConfusion h8')
        | simp only [calculateHeadPitch, h0, h7, h8']
  · intro hmiss
    have h24 : kps.get? RIGHT_HIP = none :=
      hmaxidx _ hmiss RIGHT_HIP (by simp) (by
        intro x hx
        simp only [LEFT_SHOULDER, RIGHT_SHOULDER, LEFT_HIP, RIGHT_HIP,
          List.mem_cons, List.not_mem_nil, or_false] at hx ⊢
        omega)
    cases h11 : kps.get? LEFT_SHOULDER <;> cases h12 : kps.get? RIGHT_SHOULDER <;>
      cases h23 : kps.get? LEFT_HIP <;> cases h24' : kps.get? RIGHT_HIP <;>
      first
        | (rw [h24] at h24'; exact Option.noConfusion h24')
        | simp only [calculateTorsoLeanAngle, h11, h12, h23, h24']
  · intro hmiss
    have h12 : kps.get? RIGHT_SHOULDER = none :=
      hmaxidx _ hmiss RIGHT_SHOULDER (by simp) (by
        intro x hx
        simp only [LEFT_SHOULDER, RIGHT_SHOULDER, List.mem_cons,
          List.not_mem_nil, or_false] at hx ⊢
        omega)
    cases h11 : kps.get? LEFT_SHOULDER <;> cases h12' : kps.get? RIGHT_SHOULDER <;>
      first
        | (rw [h12] at h12'; exact Option.noConfusion h12')
        | simp only [calculateShoulderAsymmetry, h11, h12']
  · intro le re ls rs h7 h8 h11 h12 hdeg
    simp only [List.get?_eq_getElem?] at h7 h8 h11 h12
    simp [calculateNeckTiltAngle, h7, h8, h11, h12, hdeg, Prod.mk_eq_zero]
  · intro ls rs lh rh h11 h12 h23 h24 hdeg
    simp only [List.get?_eq_getElem?] at h11 h12 h23 h24
    simp [calculateTorsoLeanAngle, h11, h12, h23, h24, hdeg, Prod.mk_eq_zero]

/-- Witness for C4: the empty keypoint array yields 0 for all four metrics
(for arbitrary nonzero kernels), and a 25-point array whose ear and shoulder
midpoints coincide yields 0 for the neck-tilt metric. -/
theorem C4_missing_keypoints_give_zero_witness :
    calculateNeckTiltAngle (fun _ => 37) [] = 0 ∧
    calculateHeadPitch (fun _ _ => 37) [] = 0 ∧
    calculateTorsoLeanAngle (fun _ => 37) [] = 0 ∧
    calculateShoulderAsymmetry [] = 0 ∧
    calculateNeckTiltAngle (fun _ => 37) (List.replicate 25 ((1 : ℚ), (1 : ℚ))) = 0 := by
  refine ⟨(C4_missing_keypoints_give_zero (fun _ => 37) (fun _ _ => 37) []).1 ?_,
    (C4_missing_keypoints_give_zero (fun _ => 37) (fun _ _ => 37) []).2.1 ?_,
    (C4_missing_keypoints_give_zero (fun _ => 37) (fun _ _ => 37) []).2.2.1 ?_,
    (C4_missing_keypoints_give_zero (fun _ => 37) (fun _ _ => 37) []).2.2.2.1 ?_,
    (C4_missing_keypoints_give_zero (fun _ => 37) (fun _ _ => 37)
        (List.replicate 25 ((1 : ℚ), (1 : ℚ)))).2.2.2.2.1
      (1, 1) (1, 1) (1, 1) (1, 1) ?_ ?_ ?_ ?_ ?_⟩
  · exact ⟨LEFT_EAR, by simp, by simp [LEFT_EAR]⟩
  · exact ⟨NOSE, by simp, by simp [NOSE]⟩
  · exact ⟨LEFT_SHOULDER, by simp, by simp [LEFT_SHOULDER]⟩
  · exact ⟨LEFT_SHOULDER, by simp, by simp [LEFT_SHOULDER]⟩
  · simp [LEFT_EAR, List.get?_eq_getElem?]
  · simp [RIGHT_EAR, List.get?_eq_getElem?]
  · simp [LEFT_SHOULDER, List.get?_eq_getElem?]
  · simp [RIGHT_SHOULDER, List.get?_eq_getElem?]
  · simp [subKp, midKp]

/-! ## Claim C5: the should_trigger_alert decision -/

/-- Claim C5: should_trigger_alert returns (false, empty) when fewer than
fps * 2 samples are buffered; otherwise it restricts the window to the
samples of the last bad_posture_duration_threshold seconds, reports each
metric's violation percentage over them, and returns true exactly when some
percentage is at least 60 and the time since the previous fired alert
exceeds cooldown_duration. -/
theorem C5_should_trigger_alert_decision (st : AnalyzerState) (now : ℚ) :
    (st.metricsWindow.length < st.fps * 2 →
        shouldTriggerAlert st now = (false, none, st)) ∧
    (st.fps * 2 ≤ st.metricsWindow.length → recentMetrics st now = [] →
        shouldTriggerAlert st now = (false, none, st)) ∧
    (st.fps * 2 ≤ st.metricsWindow.length →
        ((shouldTriggerAlert st now).1 = true ↔
          recentMetrics st now ≠ [] ∧
          somePctAtLeast60 (violationPcts st.thresholds (recentMetrics st now)) ∧
          st.cooldownDuration < now - st.lastNotificationTime)) ∧
    (st.fps * 2 ≤ st.metricsWindow.length → recentMetrics st now ≠ [] →
        (shouldTriggerAlert st now).2.1 =
          some (violationPcts st.thresholds (recentMetrics st now))) := by
  refine ⟨?_, ?_, ?_, ?_⟩
  · intro hlt
    simp [shouldTriggerAlert, hlt]
  · intro hge hempty
    simp [shouldTriggerAlert, not_lt.mpr hge, hempty]
  · intro hge
    by_cases hempty : recentMetrics st now = []
    · simp [shouldTriggerAlert, not_lt.mpr hge, hempty]
    · by_cases hfire : somePctAtLeast60 (violationPcts st.thresholds (recentMetrics st now))
          ∧ st.cooldownDuration < now - st.lastNotificationTime
      · simp [shouldTriggerAlert, not_lt.mpr hge, hempty, hfire]
      · simp only [not_and_or] at hfire
        rcases hfire with hfire | hfire <;>
          simp [shouldTriggerAlert, not_lt.mpr hge, hempty, hfire]
  · intro hge hempty
    by_cases hfire : somePctAtLeast60 (violationPcts st.thresholds (recentMetrics st now))
        ∧ st.cooldownDuration < now - st.lastNotificationTime
    · simp [shouldTriggerAlert, not_lt.mpr hge, hempty, hfire]
    · simp only [not_and_or] at hfire
      rcases hfire with hfire | hfire <;>
        simp [shouldTriggerAlert, not_lt.mpr hge, hempty, hfire]

/-- A concrete analyzer state used to exercise C5: fps 1, two buffered
samples, the latest pair violating the neck-tilt threshold. -/
def c5State : AnalyzerState :=
  { fps := 1
    metricsWindow := [⟨100, 0, 0, 0, 399⟩, ⟨100, 0, 0, 0, 400⟩]
    lastNotificationTime := 0 }

/-- Witness for C5 at a concrete state and instant: with two violating
samples buffered (fps * 2 = 2) and the cooldown long expired, the alert
fires. -/
theorem C5_should_trigger_alert_decision_witness :
    (shouldTriggerAlert c5State 400).1 = true :=
  ((C5_should_trigger_alert_decision c5State 400).2.2.1 (by norm_num [c5State])).mpr
    ⟨by
       have hlen : (recentMetrics c5State 400).length = 2 := by
         norm_num [recentMetrics, c5State]
       intro hnil
       rw [hnil] at hlen
       simp at hlen,
     by norm_num [recentMetrics, c5State, violationPcts, violCount, isBadPosture,
       somePctAtLeast60, List.filter],
     by norm_num [c5State]⟩

/-! ## Claim C3: the alert cooldown is never violated -/

/-- When should_trigger_alert does not fire, the analyzer state is unchanged. -/
theorem shouldTriggerAlert_state_of_not_fired (st : AnalyzerState) (now : ℚ)
    (h : (shouldTriggerAlert st now).1 = false) :
    (shouldTriggerAlert st now).2.2 = st := by
  by_cases hlt : st.metricsWindow.length < st.fps * 2
  · simp [shouldTriggerAlert, hlt]
  · by_cases hempty : recentMetrics st now = []
    · simp [shouldTriggerAlert, hlt, hempty]
    · by_cases hfire : somePctAtLeast60 (violationPcts st.thresholds (recentMetrics st now))
          ∧ st.cooldownDuration < now - st.lastNotificationTime
      · simp [shouldTriggerAlert, hlt, hempty, hfire] at h
      · simp [shouldTriggerAlert, hlt, hempty, hfire]

/-- When should_trigger_alert fires, the cooldown test against the previous
notification instant passed, and the firing instant is recorded. -/
theorem shouldTriggerAlert_state_of_fired (st : AnalyzerState) (now : ℚ)
    (h : (shouldTriggerAlert st now).1 = true) :
    st.cooldownDuration < now - st.lastNotificationTime ∧
    (shouldTriggerAlert st now).2.2.lastNotificationTime = now ∧
    (shouldTriggerAlert st now).2.2.cooldownDuration = st.cooldownDuration := by
  by_cases hlt : st.metricsWindow.length < st.fps * 2
  · simp [shouldTriggerAlert, hlt] at h
  · by_cases hempty : recentMetrics st now = []
    · simp [shouldTriggerAlert, hlt, hempty] at h
    · by_cases hfire : somePctAtLeast60 (violationPcts st.thresholds (recentMetrics st now))
          ∧ st.cooldownDuration < now - st.lastNotificationTime
      · exact ⟨hfire.2, by simp [shouldTriggerAlert, hlt, hempty, hfire],
          by simp [shouldTriggerAlert, hlt, hempty, hfire]⟩
      · simp [shouldTriggerAlert, hlt, hempty, hfire] at h

/-- Every instant at which a run of the analyzer fires lies strictly more
than one cooldown period after the last-notification instant the run started
from, and the fired instants are pairwise separated by more than the
cooldown. -/
theorem runAnalyzer_fire_separation (ops : List AnalyzerOp) (st : AnalyzerState)
    (hcd : 0 ≤ st.cooldownDuration) :
    (∀ t ∈ (runAnalyzer st ops).2,
        st.lastNotificationTime + st.cooldownDuration < t) ∧
    ((runAnalyzer st ops).2).Pairwise
      (fun a b => st.cooldownDuration < b - a) := by
  induction ops generalizing st with
  | nil => simp [runAnalyzer]
  | cons op ops ih =>
    cases op with
    | analyze m =>
      have h := ih (analyzeAppend st m) (by simpa [analyzeAppend] using hcd)
      simpa [runAnalyzer, analyzeAppend] using h
    | alertQuery now =>
      have hrun : runAnalyzer st (.alertQuery now :: ops) =
          ((runAnalyzer (shouldTriggerAlert st now).2.2 ops).1,
            (if (shouldTriggerAlert st now).1 then [now] else []) ++
              (runAnalyzer (shouldTriggerAlert st now).2.2 ops).2) := by
        simp only [runAnalyzer]
      cases hq : (shouldTriggerAlert st now).1 with
      | false =>
        have hst : (shouldTriggerAlert st now).2.2 = st :=
          shouldTriggerAlert_state_of_not_fired st now hq
        have h := ih st hcd
        constructor
        · simpa [hrun, hq, hst] using h.1
        · simpa [hrun, hq, hst] using h.2
      | true =>
        obtain ⟨hgap, hlast, hcdeq⟩ := shouldTriggerAlert_state_of_fired st now hq
        have h := ih (shouldTriggerAlert st now).2.2 (hcdeq ▸ hcd)
        rw [hlast, hcdeq] at h
        refine ⟨?_, ?_⟩ <;> simp only [hrun, hq, if_true, List.cons_append,
          List.nil_append, List.mem_cons, List.pairwise_cons]
        · rintro t (rfl | ht)
          · linarith
          · have := h.1 t ht
            linarith
        · exact ⟨fun t ht => by have := h.1 t ht; linarith, h.2⟩

/-- Claim C3: should_trigger_alert never returns true twice within
cooldown_duration seconds - whenever it fires it records the firing instant,
and across any run the fired instants are pairwise more than
cooldown_duration apart (for the source's nonnegative cooldown). -/
theorem C3_alert_cooldown_respected (st : AnalyzerState) (ops : List AnalyzerOp)
    (hcd : 0 ≤ st.cooldownDuration) :
    ((runAnalyzer st ops).2).Pairwise
      (fun a b => st.cooldownDuration < b - a) :=
  (runAnalyzer_fire_separation ops st hcd).2

/-- Witness for C3: a run with two fired alerts 400 seconds apart satisfies
the pairwise cooldown separation. -/
theorem C3_alert_cooldown_respected_witness :
    ((runAnalyzer c5State
        [.alertQuery 400, .alertQuery 500, .alertQuery 800]).2).Pairwise
      (fun a b => c5State.cooldownDuration < b - a) :=
  C3_alert_cooldown_respected c5State
    [.alertQuery 400, .alertQuery 500, .alertQuery 800] (by norm_num [c5State])

/-! ## Helper views and laws of the PostureAgent step -/

/-- The events of the open session (empty when none is open). -/
def Agent.events (s : Agent) : List PostureEvent :=
  match s.currentSession with
  | some sess => sess.events
  | none => []

/-- The warning count of the open session (0 when none is open). -/
def Agent.warningsCount (s : Agent) : ℕ :=
  match s.currentSession with
  | some sess => sess.totalWarnings
  | none => 0

theorem transitionStep_of_qualifying (s : Agent) (now : ℚ) (m : PostureMetrics)
    (v : Violations) (h1 : verdict v ≠ s.currentState)
    (h2 : minStateDuration ≤ now - s.lastStateChange) :
    transitionStep s now m v = recordTransition s now m v := by
  simp [transitionStep, h1, h2]

theorem transitionStep_of_short (s : Agent) (now : ℚ) (m : PostureMetrics)
    (v : Violations) (h1 : verdict v ≠ s.currentState)
    (h2 : ¬ minStateDuration ≤ now - s.lastStateChange) :
    transitionStep s now m v =
      { s with currentState := verdict v, lastStateChange := now } := by
  simp [transitionStep, h1, h2]

theorem transitionStep_of_same (s : Agent) (now : ℚ) (m : PostureMetrics)
    (v : Violations) (h : verdict v = s.currentState) :
    transitionStep s now m v = s := by
  simp [transitionStep, h]

theorem warningStep_events (s : Agent) (now : ℚ) :
    (warningStep s now).1.events = s.events := by
  unfold warningStep
  by_cases hbad : s.currentState = .bad
  · rcases hfw : findWarningLevel s.warningThresholds s.lastWarningLevel
        (s.badPostureAccumulator + (now - s.lastStateChange)) with _ | i <;>
      cases hsess : s.currentSession <;>
      simp [hbad, hfw, fireWarning, Agent.events, hsess]
  · by_cases hrec : 0 ≤ s.lastWarningLevel ∧ 10 < now - s.lastStateChange <;>
      simp [hbad, hrec, applyGoodDecay, Agent.events]

theorem warningStep_core (s : Agent) (now : ℚ) :
    (warningStep s now).1.currentState = s.currentState ∧
    (warningStep s now).1.lastStateChange = s.lastStateChange ∧
    (warningStep s now).1.isActive = s.isActive ∧
    (warningStep s now).1.closedSessions = s.closedSessions := by
  unfold warningStep
  by_cases hbad : s.currentState = .bad
  · rcases hfw : findWarningLevel s.warningThresholds s.lastWarningLevel
        (s.badPostureAccumulator + (now - s.lastStateChange)) with _ | i <;>
      simp [hbad, hfw, fireWarning]
  · by_cases hrec : 0 ≤ s.lastWarningLevel ∧ 10 < now - s.lastStateChange <;>
      simp [hbad, hrec, applyGoodDecay]

theorem warningStep_acc_of_bad (s : Agent) (now : ℚ) (h : s.currentState = .bad) :
    (warningStep s now).1.badPostureAccumulator = s.badPostureAccumulator := by
  unfold warningStep
  rcases hfw : findWarningLevel s.warningThresholds s.lastWarningLevel
      (s.badPostureAccumulator + (now - s.lastStateChange)) with _ | i <;>
    simp [h, hfw, fireWarning]

theorem warningStep_acc_of_settled (s : Agent) (now : ℚ)
    (h : ¬ 10 < now - s.lastStateChange) :
    (warningStep s now).1.badPostureAccumulator = s.badPostureAccumulator := by
  unfold warningStep
  by_cases hbad : s.currentState = .bad
  · rcases hfw : findWarningLevel s.warningThresholds s.lastWarningLevel
        (s.badPostureAccumulator + (now - s.lastStateChange)) with _ | i <;>
      simp [hbad, hfw, fireWarning]
  · have : ¬ (0 ≤ s.lastWarningLevel ∧ 10 < now - s.lastStateChange) :=
      fun hc => h hc.2
    simp [hbad, this]

/-! ## Claim C8: debounced state transitions and event emission -/

/-- Claim C8: on each posture update of an active agent, a PostureEvent is
emitted exactly when the frame verdict differs from the tracked state and the
tracked state has persisted at least min_state_duration; on such a transition
the elapsed duration is flushed into the accumulator exactly when leaving
BAD, the event describes the state just left, and current_state and the
state-change timestamp are updated; a differing verdict below the debounce
updates current_state (and the timestamp) without emitting an event; an
agreeing verdict leaves state, timestamp and events unchanged. -/
theorem C8_debounced_transition_events (s : Agent) (now : ℚ)
    (m : PostureMetrics) (v : Violations) (sess : OpenSession)
    (hact : s.isActive = true) (hsess : s.currentSession = some sess) :
    ((processPostureUpdate s now m v true).1.events =
        s.events ++ [{ timestamp := s.lastStateChange, state := s.currentState,
                       metrics := m, violations := v,
                       duration := now - s.lastStateChange }] ↔
      verdict v ≠ s.currentState ∧ minStateDuration ≤ now - s.lastStateChange) ∧
    (verdict v ≠ s.currentState → minStateDuration ≤ now - s.lastStateChange →
      (processPostureUpdate s now m v true).1.currentState = verdict v ∧
      (processPostureUpdate s now m v true).1.lastStateChange = now ∧
      (processPostureUpdate s now m v true).1.badPostureAccumulator =
        s.badPostureAccumulator +
          (if s.currentState = .bad then now - s.lastStateChange else 0)) ∧
    (verdict v ≠ s.currentState → ¬ minStateDuration ≤ now - s.lastStateChange →
      (processPostureUpdate s now m v true).1.currentState = verdict v ∧
      (processPostureUpdate s now m v true).1.lastStateChange = now ∧
      (processPostureUpdate s now m v true).1.events = s.events ∧
      (processPostureUpdate s now m v true).1.badPostureAccumulator =
        s.badPostureAccumulator) ∧
    (verdict v = s.currentState →
      (processPostureUpdate s now m v true).1.events = s.events ∧
      (processPostureUpdate s now m v true).1.currentState = s.currentState ∧
      (processPostureUpdate s now m v true).1.lastStateChange =
        s.lastStateChange) := by
  have hstep : processPostureUpdate s now m v true =
      warningStep (transitionStep s now m v) now := by
    simp [processPostureUpdate, hact]
  by_cases h1 : verdict v = s.currentState
  · -- no transition
    have ht := transitionStep_of_same s now m v h1
    have hev := warningStep_events s now
    have hcore := warningStep_core s now
    rw [hstep, ht] at *
    refine ⟨?_, fun hne _ => absurd h1 hne, fun hne _ => absurd h1 hne,
      fun _ => ⟨hev, hcore.1, hcore.2.1⟩⟩
    constructor
    · intro happ
      rw [hev] at happ
      have := congrArg List.length happ
      simp at this
    · rintro ⟨hne, -⟩
      exact absurd h1 hne
  · by_cases h2 : minStateDuration ≤ now - s.lastStateChange
    · -- qualifying transition
      have ht := transitionStep_of_qualifying s now m v h1 h2
      have hev := warningStep_events (transitionStep s now m v) now
      have hcore := warningStep_core (transitionStep s now m v) now
      refine ⟨?_, ?_, fun _ hc => absurd h2 hc, fun hc => absurd hc h1⟩
      · rw [hstep, hev, ht]
        constructor
        · intro _
          exact ⟨h1, h2⟩
        · intro _
          simp [recordTransition, Agent.events, hsess, completedEvent]
      · intro _ _
        have hacc : (warningStep (transitionStep s now m v) now).1.badPostureAccumulator
            = (transitionStep s now m v).badPostureAccumulator := by
          by_cases hbad : (transitionStep s now m v).currentState = .bad
          · exact warningStep_acc_of_bad _ now hbad
          · refine warningStep_acc_of_settled _ now ?_
            rw [ht]
            simp only [recordTransition]
            norm_num
        rw [hstep]
        refine ⟨?_, ?_, ?_⟩
        · rw [hcore.1, ht]
          simp [recordTransition]
        · rw [hcore.2.1, ht]
          simp [recordTransition]
        · rw [hacc, ht]
          by_cases hbad : s.currentState = .bad <;>
            simp [recordTransition, hbad]
    · -- short-lived state: silent update
      have ht := transitionStep_of_short s now m v h1 h2
      have hev := warningStep_events (transitionStep s now m v) now
      have hcore := warningStep_core (transitionStep s now m v) now
      refine ⟨?_, fun _ hc => absurd hc h2, ?_, fun hc => absurd hc h1⟩
      · rw [hstep, hev, ht]
        constructor
        · intro happ
          simp only [Agent.events, hsess] at happ
          have := congrArg List.length happ
          simp at this
        · rintro ⟨-, hc⟩
          exact absurd hc h2
      · intro _ _
        have hacc : (warningStep (transitionStep s now m v) now).1.badPostureAccumulator
            = (transitionStep s now m v).badPostureAccumulator := by
          by_cases hbad : (transitionStep s now m v).currentState = .bad
          · exact warningStep_acc_of_bad _ now hbad
          · refine warningStep_acc_of_settled _ now ?_
            rw [ht]
            norm_num
        rw [hstep]
        refine ⟨?_, ?_, ?_, ?_⟩
        · rw [hcore.1, ht]
        · rw [hcore.2.1, ht]
        · rw [hev, ht]
          simp [Agent.events, hsess]
        · rw [hacc, ht]

/-- Witness for C8 at a concrete active agent: a BAD verdict arriving after
4 seconds of tracked GOOD emits exactly the completed-GOOD event and flushes
nothing into the accumulator. -/
theorem C8_debounced_transition_events_witness :
    ((processPostureUpdate
        { currentSession := some { startTime := 0 }, lastStateChange := 1,
          isActive := true }
        5 ⟨0, 0, 0, 0, 5⟩ ⟨true, false, false, false⟩ true).1.events =
      [{ timestamp := 1, state := .good, metrics := ⟨0, 0, 0, 0, 5⟩,
         violations := ⟨true, false, false, false⟩, duration := 4 }]) := by
  have h := (C8_debounced_transition_events
      { currentSession := some { startTime := 0 }, lastStateChange := 1,
        isActive := true }
      5 ⟨0, 0, 0, 0, 5⟩ ⟨true, false, false, false⟩ { startTime := 0 }
      rfl rfl).1.mpr
    ⟨by simp [verdict, Violations.anyViol], by norm_num [minStateDuration]⟩
  rw [h]
  norm_num [Agent.events]

/-! ## Claim C6: warning escalation while BAD -/

/-- Specification form of the warning loop's outcome: index i is in range,
its threshold is reached by the current bad duration, it is strictly greater
than the last-fired level, and no smaller index satisfies both conditions. -/
def FiresFirstAt (thresholds : List ℚ) (lastLevel : ℤ) (badDuration : ℚ)
    (i : ℕ) : Prop :=
  ∃ h : i < thresholds.length,
    thresholds.get ⟨i, h⟩ ≤ badDuration ∧ lastLevel < (i : ℤ) ∧
    ∀ j (hj : j < thresholds.length), j < i →
      ¬ (thresholds.get ⟨j, hj⟩ ≤ badDuration ∧ lastLevel < (j : ℤ))

theorem findWarningLevelFrom_eq_some (ll : ℤ) (bd : ℚ) :
    ∀ (thr : List ℚ) (base i : ℕ),
      findWarningLevelFrom ll bd thr base = some i ↔
      ∃ k, ∃ hk : k < thr.length, i = base + k ∧
        thr.get ⟨k, hk⟩ ≤ bd ∧ ll < ((base + k : ℕ) : ℤ) ∧
        ∀ j (hj : j < thr.length), j < k →
          ¬ (thr.get ⟨j, hj⟩ ≤ bd ∧ ll < ((base + j : ℕ) : ℤ)) := by
  intro thr
  induction thr with
  | nil => intro base i; simp [findWarningLevelFrom]
  | cons t rest ih =>
    intro base i
    by_cases hc : t ≤ bd ∧ ll < (base : ℤ)
    · rw [findWarningLevelFrom, if_pos hc]
      constructor
      · intro h
        injection h with h
        refine ⟨0, by simp, by omega, by simpa using hc.1, by simpa using hc.2,
          fun j hj hj0 => absurd hj0 (Nat.not_lt_zero j)⟩
      · rintro ⟨k, hk, hik, hget, hll, hmin⟩
        cases k with
        | zero => simp [hik]
        | succ k' =>
          have h0 : (0 : ℕ) < k' + 1 := Nat.succ_pos k'
          have hj0 : (0 : ℕ) < (t :: rest).length := by simp
          exact absurd ⟨by simpa using hc.1, by simpa using hc.2⟩
            (hmin 0 hj0 h0)
    · rw [findWarningLevelFrom, if_neg hc]
      rw [ih (base + 1) i]
      constructor
      · rintro ⟨k', hk', hik, hget, hll, hmin⟩
        refine ⟨k' + 1, Nat.succ_lt_succ hk', by omega, by simpa using hget,
          by push_cast at hll ⊢; omega, ?_⟩
        intro j hj hjk
        cases j with
        | zero =>
          intro hcontra
          exact hc ⟨by simpa using hcontra.1, by simpa using hcontra.2⟩
        | succ j' =>
          have hj' : j' < rest.length := Nat.lt_of_succ_lt_succ hj
          have hj'k : j' < k' := Nat.lt_of_succ_lt_succ hjk
          intro hcontra
          refine hmin j' hj' hj'k ⟨by simpa using hcontra.1, ?_⟩
          have := hcontra.2
          push_cast at this ⊢
          omega
      · rintro ⟨k, hk, hik, hget, hll, hmin⟩
        cases k with
        | zero =>
          exact absurd ⟨by simpa using hget, by simpa using hll⟩ hc
        | succ k' =>
          refine ⟨k', Nat.lt_of_succ_lt_succ hk, by omega,
            by simpa using hget, by push_cast at hll ⊢; omega, ?_⟩
          intro j hj hjk
          intro hcontra
          have hjc : j + 1 < (t :: rest).length := Nat.succ_lt_succ hj
          refine hmin (j + 1) hjc (Nat.succ_lt_succ hjk)
            ⟨by simpa using hcontra.1, ?_⟩
          have := hcontra.2
          push_cast at this ⊢
          omega

/-- The Python for/enumerate/break loop returns some i exactly when i is the
first index whose threshold is reached and which exceeds the last level. -/
theorem findWarningLevel_eq_some_iff (thr : List ℚ) (ll : ℤ) (bd : ℚ) (i : ℕ) :
    findWarningLevel thr ll bd = some i ↔ FiresFirstAt thr ll bd i := by
  unfold findWarningLevel FiresFirstAt
  rw [findWarningLevelFrom_eq_some]
  constructor
  · rintro ⟨k, hk, hik, hget, hll, hmin⟩
    have hik' : i = k := by omega
    subst hik'
    exact ⟨hk, hget, by simpa using hll,
      fun j hj hji hcontra => hmin j hj hji ⟨hcontra.1, by simpa using hcontra.2⟩⟩
  · rintro ⟨hi, hget, hll, hmin⟩
    exact ⟨i, hi, by omega, hget, by simpa using hll,
      fun j hj hji hcontra => hmin j hj hji ⟨hcontra.1, by simpa using hcontra.2⟩⟩

/-- Zero metrics sample used by the synthetic scenarios. -/
def mZero : PostureMetrics := ⟨0, 0, 0, 0, 0⟩

/-- A single neck-tilt violation (a BAD frame verdict). -/
def vBadFrame : Violations := ⟨true, false, false, false⟩

/-- A clean frame (a GOOD verdict). -/
def vGoodFrame : Violations := ⟨false, false, false, false⟩

/-- The C6 synthetic sequence: one update per second, bad posture persisting
from t = 0 through t = 16 while active. -/
def c6Trace : List UpdateIn :=
  (List.range 17).map (fun i => ⟨(i : ℚ), mZero, vBadFrame, true⟩)

set_option maxRecDepth 80000 in
/-- Claim C6: warning escalation is evaluated on every update while the
tracked state is BAD, with current bad duration equal to the accumulator
plus the elapsed time of the current BAD run; at most one warning fires per
update, exactly at the first threshold index that is both reached and
strictly greater than the last-fired index, and each firing increments the
session's warning count; in particular, for bad posture persisting exactly
16 s against the 15/45/120 threshold list, exactly one warning fires, at
index 0, at t = 15 and not before. -/
theorem C6_warning_escalation (s : Agent) (now : ℚ) (m : PostureMetrics)
    (v : Violations) (sess : OpenSession) (hact : s.isActive = true)
    (hsess : s.currentSession = some sess) (hbad : s.currentState = .bad)
    (hviol : v.anyViol = true) :
    (∀ i : ℕ, (processPostureUpdate s now m v true).2 = some i ↔
        FiresFirstAt s.warningThresholds s.lastWarningLevel
          (s.badPostureAccumulator + (now - s.lastStateChange)) i) ∧
    (∀ i : ℕ, (processPostureUpdate s now m v true).2 = some i →
        (processPostureUpdate s now m v true).1.lastWarningLevel = (i : ℤ) ∧
        (processPostureUpdate s now m v true).1.warningsCount =
          s.warningsCount + 1) ∧
    ((processPostureUpdate s now m v true).2 = none →
        (processPostureUpdate s now m v true).1.lastWarningLevel =
          s.lastWarningLevel ∧
        (processPostureUpdate s now m v true).1.warningsCount =
          s.warningsCount) ∧
    ((runAgent (initAgent 0) c6Trace).2 = [(15, 0)] ∧
      (runAgent (initAgent 0) c6Trace).1.warningsCount = 1) := by
  have hstep : processPostureUpdate s now m v true =
      warningStep (transitionStep s now m v) now := by
    simp [processPostureUpdate, hact]
  have hsame : verdict v = s.currentState := by
    rw [hbad]; simp [verdict, hviol]
  have ht := transitionStep_of_same s now m v hsame
  rw [hstep, ht]
  have hws : warningStep s now =
      match findWarningLevel s.warningThresholds s.lastWarningLevel
          (s.badPostureAccumulator + (now - s.lastStateChange)) with
      | some i => (fireWarning s i, some i)
      | none => (s, none) := by
    simp [warningStep, hbad]
  refine ⟨?_, ?_, ?_, ?_⟩
  · intro i
    rw [hws, ← findWarningLevel_eq_some_iff]
    rcases hfw : findWarningLevel s.warningThresholds s.lastWarningLevel
        (s.badPostureAccumulator + (now - s.lastStateChange)) with _ | k <;>
      simp [hfw]
  · intro i hi
    rw [hws] at hi ⊢
    rcases hfw : findWarningLevel s.warningThresholds s.lastWarningLevel
        (s.badPostureAccumulator + (now - s.lastStateChange)) with _ | k <;>
      rw [hfw] at hi
    · exact absurd hi (by simp)
    · have hik : k = i := by simpa using hi
      subst hik
      simp [hfw, fireWarning, Agent.warningsCount, hsess]
  · intro hnone
    rw [hws] at hnone ⊢
    rcases hfw : findWarningLevel s.warningThresholds s.lastWarningLevel
        (s.badPostureAccumulator + (now - s.lastStateChange)) with _ | k <;>
      rw [hfw] at hnone
    · simp [hfw]
    · exact absurd hnone (by simp)
  · constructor
    · norm_num +decide [runAgent, c6Trace, List.range_succ, initAgent,
        processPostureUpdate, startSession, endSession, transitionStep,
        recordTransition, completedEvent, verdict, warningStep, fireWarning,
        applyGoodDecay, findWarningLevel, findWarningLevelFrom, mZero,
        vBadFrame, Violations.anyViol, minStateDuration]
    · norm_num +decide [runAgent, c6Trace, List.range_succ, initAgent,
        processPostureUpdate, startSession, endSession, transitionStep,
        recordTransition, completedEvent, verdict, warningStep, fireWarning,
        applyGoodDecay, findWarningLevel, findWarningLevelFrom, mZero,
        vBadFrame, Violations.anyViol, minStateDuration, Agent.warningsCount]

/-- Witness for C6 at a concrete BAD-tracked agent 20 s into its run: the
level-0 warning (threshold 15) fires. -/
theorem C6_warning_escalation_witness :
    (processPostureUpdate
        { currentSession := some { startTime := 0 }, currentState := .bad,
          lastStateChange := 0, isActive := true }
        20 mZero vBadFrame true).2 = some 0 :=
  ((C6_warning_escalation
      { currentSession := some { startTime := 0 }, currentState := .bad,
        lastStateChange := 0, isActive := true }
      20 mZero vBadFrame { startTime := 0 } rfl rfl rfl
      (by simp [vBadFrame, Violations.anyViol])).1 0).mpr
    ⟨by norm_num, by norm_num [List.get], by norm_num,
     fun j hj hj0 => absurd hj0 (Nat.not_lt_zero j)⟩

/-! ## Claim C7: recovery on sustained good posture -/

theorem endSession_acc (s : Agent) (now : ℚ) :
    (endSession s now).badPostureAccumulator = s.badPostureAccumulator := by
  unfold endSession
  cases s.currentSession <;> simp

theorem startSession_fields (s : Agent) (now : ℚ) :
    (startSession s now).badPostureAccumulator = 0 ∧
    (startSession s now).lastStateChange = s.lastStateChange ∧
    (startSession s now).currentState = s.currentState := by
  unfold startSession
  cases hs : s.currentSession <;> simp [hs, endSession]

theorem transitionStep_acc_nonneg (s : Agent) (now : ℚ) (m : PostureMetrics)
    (v : Violations) (hacc : 0 ≤ s.badPostureAccumulator)
    (hmono : s.lastStateChange ≤ now) :
    0 ≤ (transitionStep s now m v).badPostureAccumulator := by
  unfold transitionStep
  by_cases h1 : verdict v ≠ s.currentState ∧
      minStateDuration ≤ now - s.lastStateChange
  · rw [if_pos h1]
    unfold recordTransition
    by_cases hbad : s.currentState = .bad <;> simp [hbad] <;> linarith
  · rw [if_neg h1]
    by_cases h2 : verdict v ≠ s.currentState <;> simp [h2, hacc]

theorem warningStep_acc_nonneg (s : Agent) (now : ℚ)
    (hacc : 0 ≤ s.badPostureAccumulator) :
    0 ≤ (warningStep s now).1.badPostureAccumulator := by
  unfold warningStep
  by_cases hbad : s.currentState = .bad
  · rcases hfw : findWarningLevel s.warningThresholds s.lastWarningLevel
        (s.badPostureAccumulator + (now - s.lastStateChange)) with _ | i <;>
      simp [hbad, hfw, fireWarning, hacc]
  · by_cases hrec : 0 ≤ s.lastWarningLevel ∧ 10 < now - s.lastStateChange <;>
      simp [hbad, hrec, applyGoodDecay, hacc, le_max_left]

/-- Claim C7: for every update made while the tracked state is GOOD, if the
last warning index is set (at least 0) and good posture has been sustained
for more than 10 seconds, the warning index resets to -1 and the bad-posture
accumulator decreases by the sustained-good duration, floored at 0; moreover
one update never drives a nonnegative accumulator negative (for a
non-decreasing clock). -/
theorem C7_sustained_good_decay (s : Agent) (now : ℚ) (m : PostureMetrics)
    (v : Violations) (hact : s.isActive = true)
    (hgood : s.currentState = .good) (hviol : v.anyViol = false)
    (hlwl : 0 ≤ s.lastWarningLevel) (hdur : 10 < now - s.lastStateChange) :
    (processPostureUpdate s now m v true).1.lastWarningLevel = -1 ∧
    (processPostureUpdate s now m v true).1.badPostureAccumulator =
      max 0 (s.badPostureAccumulator - (now - s.lastStateChange)) ∧
    ∀ (s' : Agent) (now' : ℚ) (m' : PostureMetrics) (v' : Violations)
      (b : Bool), 0 ≤ s'.badPostureAccumulator →
      s'.lastStateChange ≤ now' →
      0 ≤ (processPostureUpdate s' now' m' v' b).1.badPostureAccumulator := by
  have hstep : processPostureUpdate s now m v true =
      warningStep (transitionStep s now m v) now := by
    simp [processPostureUpdate, hact]
  have hsame : verdict v = s.currentState := by
    rw [hgood]; simp [verdict, hviol]
  have ht := transitionStep_of_same s now m v hsame
  have hnotbad : ¬ s.currentState = .bad := by rw [hgood]; simp
  have hws : warningStep s now = (applyGoodDecay s now, none) := by
    simp [warningStep, hnotbad, hlwl, hdur]
  refine ⟨?_, ?_, ?_⟩
  · rw [hstep, ht, hws]
    simp [applyGoodDecay]
  · rw [hstep, ht, hws]
    simp [applyGoodDecay]
  · intro s' now' m' v' b hacc hmono
    cases b with
    | false =>
      by_cases hia : s'.isActive = true <;>
        simp [processPostureUpdate, hia, endSession_acc, hacc]
    | true =>
      have hstep' : processPostureUpdate s' now' m' v' true =
          warningStep (transitionStep
            (if ¬ s'.isActive then startSession s' now' else s') now' m' v')
            now' := by
        simp [processPostureUpdate]
      rw [hstep']
      refine warningStep_acc_nonneg _ now' (transitionStep_acc_nonneg _ now' m' v' ?_ ?_)
      · by_cases hia : s'.isActive = true <;>
          simp [hia, (startSession_fields s' now').1, hacc]
      · by_cases hia : s'.isActive = true <;>
          simp [hia, (startSession_fields s' now').2.1, hmono]

/-- Witness for C7: a GOOD-tracked agent with warning level 1 and 12 s of
accumulated bad time, after 20 s of sustained good posture, resets the level
and decays the accumulator from 12 to 0. -/
theorem C7_sustained_good_decay_witness :
    (processPostureUpdate
        { currentSession := some { startTime := 0 }, currentState := .good,
          lastStateChange := 0, badPostureAccumulator := 12,
          lastWarningLevel := 1, isActive := true }
        20 mZero vGoodFrame true).1.lastWarningLevel = -1 ∧
    (processPostureUpdate
        { currentSession := some { startTime := 0 }, currentState := .good,
          lastStateChange := 0, badPostureAccumulator := 12,
          lastWarningLevel := 1, isActive := true }
        20 mZero vGoodFrame true).1.badPostureAccumulator = 0 := by
  have h := C7_sustained_good_decay
    { currentSession := some { startTime := 0 }, currentState := .good,
      lastStateChange := 0, badPostureAccumulator := 12,
      lastWarningLevel := 1, isActive := true }
    20 mZero vGoodFrame rfl rfl (by simp [vGoodFrame, Violations.anyViol])
    (by norm_num) (by norm_num)
  refine ⟨h.1, ?_⟩
  rw [h.2.1]
  norm_num

/-! ## Claim C1: accumulated bad-posture time versus session duration

current_state and last_state_change are not reset by start_session, so a BAD
run that began before the session opened is flushed whole into the fresh
session's accumulator at its first qualifying transition; the accumulator
then exceeds the session's elapsed time.  c1Trace performs exactly that:
BAD tracked from t = 0, the first session ends at t = 5, a second session
opens at t = 100 and immediately absorbs the 100 s of stale BAD run. -/

/-- The invariant claim C1 asserts of every closed session row. -/
def closedOk (l : List ClosedSession) : Prop :=
  ∀ c ∈ l, c.startTime ≤ c.endTime ∧
    c.totalBadPostureDuration ≤ c.endTime - c.startTime

/-- The trace refuting claim C1 as stated. -/
def c1Trace : List UpdateIn :=
  [⟨0, mZero, vBadFrame, true⟩, ⟨5, mZero, vGoodFrame, false⟩,
   ⟨100, mZero, vGoodFrame, true⟩, ⟨101, mZero, vGoodFrame, false⟩]

set_option maxRecDepth 80000 in
/-- Counterexample to claim C1: running c1Trace from a fresh agent closes a
second session with start 100, end 101 and accumulated bad-posture duration
100, which exceeds the 1-second elapsed wall-clock duration. -/
theorem C1_counterexample :
    (runAgent (initAgent 0) c1Trace).1.closedSessions =
      [{ startTime := 0, endTime := 5, totalBadPostureDuration := 0,
         totalWarnings := 0 },
       { startTime := 100, endTime := 101, totalBadPostureDuration := 100,
         totalWarnings := 0 }] ∧
    ¬ closedOk (runAgent (initAgent 0) c1Trace).1.closedSessions := by
  have heval : (runAgent (initAgent 0) c1Trace).1.closedSessions =
      [{ startTime := 0, endTime := 5, totalBadPostureDuration := 0,
         totalWarnings := 0 },
       { startTime := 100, endTime := 101, totalBadPostureDuration := 100,
         totalWarnings := 0 }] := by
    norm_num +decide [runAgent, c1Trace, initAgent, processPostureUpdate,
      startSession, endSession, transitionStep, recordTransition,
      completedEvent, verdict, warningStep, fireWarning, applyGoodDecay,
      findWarningLevel, findWarningLevelFrom, mZero, vBadFrame, vGoodFrame,
      Violations.anyViol, minStateDuration]
  refine ⟨heval, fun h => ?_⟩
  have := (h (⟨100, 101, 100, 0⟩ : ClosedSession) (by rw [heval]; simp)).2
  norm_num at this

/-- The inductive invariant of an active agent whose updates so far all
happened at instants at most t: the open session's accumulator is bounded by
the time from session start to the last state change (when BAD) or its
nonnegative part (when GOOD). -/
def ActiveInv (s : Agent) (t : ℚ) : Prop :=
  s.isActive = true ∧ s.lastStateChange ≤ t ∧ 0 ≤ s.badPostureAccumulator ∧
  ∃ sess, s.currentSession = some sess ∧ sess.startTime ≤ t ∧
    ((s.currentState = .bad ∧ sess.startTime ≤ s.lastStateChange ∧
        s.badPostureAccumulator ≤ s.lastStateChange - sess.startTime) ∨
     (s.currentState = .good ∧
        s.badPostureAccumulator ≤ max 0 (s.lastStateChange - sess.startTime)))

theorem ActiveInv.mono {s : Agent} {t t' : ℚ} (h : ActiveInv s t)
    (htt : t ≤ t') : ActiveInv s t' := by
  obtain ⟨hact, hlsc, hacc, sess, hsess, hst, hcases⟩ := h
  exact ⟨hact, hlsc.trans htt, hacc, sess, hsess, hst.trans htt, hcases⟩

theorem transitionStep_closed (s : Agent) (now : ℚ) (m : PostureMetrics)
    (v : Violations) :
    (transitionStep s now m v).closedSessions = s.closedSessions := by
  unfold transitionStep
  split_ifs <;> simp [recordTransition]

theorem transitionStep_activeInv (s : Agent) (t now : ℚ) (m : PostureMetrics)
    (v : Violations) (hinv : ActiveInv s t) (hmono : t ≤ now) :
    ActiveInv (transitionStep s now m v) now := by
  obtain ⟨hact, hlsc, hacc, sess, hsess, hst, hcases⟩ := hinv
  have hlscnow : s.lastStateChange ≤ now := hlsc.trans hmono
  have hstnow : sess.startTime ≤ now := hst.trans hmono
  unfold transitionStep
  by_cases h1 : verdict v ≠ s.currentState ∧
      minStateDuration ≤ now - s.lastStateChange
  · rw [if_pos h1]
    have hvg : verdict v = .bad ∨ verdict v = .good := by
      unfold verdict; by_cases hv : v.anyViol <;> simp [hv]
    rcases hcases with ⟨hbad, hsl, hb⟩ | ⟨hgood, hb⟩
    · -- leaving BAD: the verdict must be GOOD
      have hvgood : verdict v = .good := by
        rcases hvg with hv | hv
        · exact absurd (hv.trans hbad.symm) h1.1
        · exact hv
      refine ⟨by simp [recordTransition, hact], by simp [recordTransition],
        ?_, ?_⟩
      · simp only [recordTransition, hbad, if_pos]
        linarith
      · refine ⟨{ sess with events := sess.events ++ [completedEvent s now m v] },
          by simp [recordTransition, hsess], hstnow, Or.inr ⟨?_, ?_⟩⟩
        · simp [recordTransition, hvgood]
        · simp only [recordTransition, hbad, if_pos]
          refine le_trans ?_ (le_max_right 0 (now - sess.startTime))
          linarith
    · -- leaving GOOD: the verdict must be BAD
      have hvbad : verdict v = .bad := by
        rcases hvg with hv | hv
        · exact hv
        · exact absurd (hv.trans hgood.symm) h1.1
      have hble : s.badPostureAccumulator ≤ now - sess.startTime := by
        refine le_trans hb (max_le (by linarith) (by linarith))
      refine ⟨by simp [recordTransition, hact], by simp [recordTransition],
        ?_, ?_⟩
      · have : ¬ s.currentState = .bad := by rw [hgood]; simp
        simpa [recordTransition, this] using hacc
      · have hnb : ¬ s.currentState = .bad := by rw [hgood]; simp
        refine ⟨{ sess with events := sess.events ++ [completedEvent s now m v] },
          by simp [recordTransition, hsess], hstnow, Or.inl ⟨?_, hstnow, ?_⟩⟩
        · simp [recordTransition, hvbad]
        · simpa [recordTransition, hnb] using hble
  · rw [if_neg h1]
    by_cases h2 : verdict v ≠ s.currentState
    · rw [if_pos h2]
      have hvg : verdict v = .bad ∨ verdict v = .good := by
        unfold verdict; by_cases hv : v.anyViol <;> simp [hv]
      rcases hcases with ⟨hbad, hsl, hb⟩ | ⟨hgood, hb⟩
      · have hvgood : verdict v = .good := by
          rcases hvg with hv | hv
          · exact absurd (hv.trans hbad.symm) h2
          · exact hv
        refine ⟨hact, le_refl now, hacc, sess, hsess, hstnow,
          Or.inr ⟨hvgood, ?_⟩⟩
        refine le_trans hb (le_trans ?_ (le_max_right 0 (now - sess.startTime)))
        linarith
      · have hvbad : verdict v = .bad := by
          rcases hvg with hv | hv
          · exact hv
          · exact absurd (hv.trans hgood.symm) h2
        refine ⟨hact, le_refl now, hacc, sess, hsess, hstnow,
          Or.inl ⟨hvbad, hstnow, ?_⟩⟩
        exact le_trans hb (max_le (by linarith) (by linarith))
    · rw [if_neg h2]
      exact ActiveInv.mono ⟨hact, hlsc, hacc, sess, hsess, hst, hcases⟩ hmono

theorem warningStep_activeInv (s : Agent) (now : ℚ) (hinv : ActiveInv s now) :
    ActiveInv (warningStep s now).1 now := by
  obtain ⟨hact, hlsc, hacc, sess, hsess, hst, hcases⟩ := hinv
  by_cases hbad : s.currentState = .bad
  · have hws : warningStep s now =
        match findWarningLevel s.warningThresholds s.lastWarningLevel
            (s.badPostureAccumulator + (now - s.lastStateChange)) with
        | some i => (fireWarning s i, some i)
        | none => (s, none) := by
      simp [warningStep, hbad]
    rcases hfw : findWarningLevel s.warningThresholds s.lastWarningLevel
        (s.badPostureAccumulator + (now - s.lastStateChange)) with _ | i <;>
      rw [hws, hfw]
    · exact ⟨hact, hlsc, hacc, sess, hsess, hst, hcases⟩
    · refine ⟨by simp [fireWarning, hact], by simp [fireWarning, hlsc],
        by simp [fireWarning, hacc], ?_⟩
      refine ⟨{ sess with totalWarnings := sess.totalWarnings + 1 },
        by simp [fireWarning, hsess], hst, ?_⟩
      rcases hcases with ⟨hb, h1, h2⟩ | ⟨hg, h2⟩
      · exact Or.inl ⟨by simp [fireWarning, hb], h1, by simp [fireWarning, h2]⟩
      · exact Or.inr ⟨by simp [fireWarning, hg], by simp [fireWarning, h2]⟩
  · by_cases hrec : 0 ≤ s.lastWarningLevel ∧ 10 < now - s.lastStateChange
    · have hws : warningStep s now = (applyGoodDecay s now, none) := by
        simp [warningStep, hbad, hrec]
      rw [hws]
      refine ⟨by simp [applyGoodDecay, hact], by simp [applyGoodDecay, hlsc],
        by simp [applyGoodDecay], ?_⟩
      refine ⟨sess, by simp [applyGoodDecay, hsess], hst, ?_⟩
      rcases hcases with ⟨hb, _, _⟩ | ⟨hg, h2⟩
      · exact absurd hb hbad
      · refine Or.inr ⟨by simp [applyGoodDecay, hg], ?_⟩
        have hdec : max 0 (s.badPostureAccumulator - (now - s.lastStateChange))
            ≤ s.badPostureAccumulator := max_le hacc (by linarith)
        simpa [applyGoodDecay] using hdec.trans h2
    · have hws : warningStep s now = (s, none) := by
        simp [warningStep, hbad, hrec]
      rw [hws]
      exact ⟨hact, hlsc, hacc, sess, hsess, hst, hcases⟩

theorem processPostureUpdate_activeInv (s : Agent) (t now : ℚ)
    (m : PostureMetrics) (v : Violations) (hinv : ActiveInv s t)
    (hmono : t ≤ now) :
    ActiveInv (processPostureUpdate s now m v true).1 now ∧
    (processPostureUpdate s now m v true).1.closedSessions =
      s.closedSessions := by
  have hstep : processPostureUpdate s now m v true =
      warningStep (transitionStep s now m v) now := by
    simp [processPostureUpdate, hinv.1]
  rw [hstep]
  refine ⟨warningStep_activeInv _ now
      (transitionStep_activeInv s t now m v hinv hmono), ?_⟩
  rw [(warningStep_core _ now).2.2.2, transitionStep_closed]

theorem processPostureUpdate_establish (s : Agent) (now : ℚ)
    (m : PostureMetrics) (v : Violations) (hinactive : s.isActive = false)
    (hgood : s.currentState = .good) (hsess : s.currentSession = none)
    (hlsc : s.lastStateChange ≤ now) :
    ActiveInv (processPostureUpdate s now m v true).1 now ∧
    (processPostureUpdate s now m v true).1.closedSessions =
      s.closedSessions := by
  have hstep : processPostureUpdate s now m v true =
      warningStep (transitionStep (startSession s now) now m v) now := by
    simp [processPostureUpdate, hinactive]
  have hstart : startSession s now =
      { s with currentSession := some { startTime := now },
               badPostureAccumulator := 0, lastWarningLevel := -1,
               isActive := true } := by
    unfold startSession
    simp [hsess]
  have hinv1 : ActiveInv (startSession s now) now := by
    rw [hstart]
    exact ⟨rfl, hlsc, le_refl 0,
      { startTime := now }, rfl, le_refl now,
      Or.inr ⟨hgood, le_max_left 0 _⟩⟩
  rw [hstep]
  refine ⟨warningStep_activeInv _ now
      (transitionStep_activeInv _ now now m v hinv1 (le_refl now)), ?_⟩
  rw [(warningStep_core _ now).2.2.2, transitionStep_closed, hstart]

theorem endSession_closedOk (s : Agent) (tEnd : ℚ) (hinv : ActiveInv s tEnd)
    (hok : closedOk s.closedSessions) :
    closedOk (endSession s tEnd).closedSessions := by
  obtain ⟨hact, hlsc, hacc, sess, hsess, hst, hcases⟩ := hinv
  unfold endSession
  rw [hsess]
  intro c hc
  simp only [List.mem_append, List.mem_singleton] at hc
  rcases hc with hc | rfl
  · exact hok c hc
  · refine ⟨hst, ?_⟩
    rcases hcases with ⟨_, hsl, hb⟩ | ⟨_, hb⟩
    · simp only
      linarith
    · simp only
      exact le_trans hb (max_le (by linarith) (by linarith))

theorem runAgent_activeInv (tr : List UpdateIn) (s : Agent) (t tEnd : ℚ)
    (hinv : ActiveInv s t)
    (hch : List.Chain (fun a b => a ≤ b) t (tr.map UpdateIn.now ++ [tEnd]))
    (hall : ∀ u ∈ tr, u.shouldActive = true) :
    ActiveInv (runAgent s tr).1 tEnd ∧
    (runAgent s tr).1.closedSessions = s.closedSessions := by
  induction tr generalizing s t with
  | nil =>
    simp only [List.map_nil, List.nil_append, List.chain_cons,
      List.Chain.nil, and_true] at hch
    exact ⟨hinv.mono hch, rfl⟩
  | cons u us ih =>
    simp only [List.map_cons, List.cons_append, List.chain_cons] at hch
    obtain ⟨htu, hch'⟩ := hch
    have hu : u.shouldActive = true := hall u (List.mem_cons_self u us)
    have h1 := processPostureUpdate_activeInv s t u.now u.metrics
      u.violations hinv htu
    have hrun : (runAgent s (u :: us)).1 =
        (runAgent (processPostureUpdate s u.now u.metrics u.violations
          u.shouldActive).1 us).1 := by
      simp [runAgent]
    rw [hrun, hu]
    have h2 := ih (processPostureUpdate s u.now u.metrics u.violations true).1
      u.now h1.1 hch' (fun x hx => hall x (List.mem_cons_of_mem u hx))
    exact ⟨h2.1, h2.2.trans h1.2⟩

/-- Claim C1, amended: the closed-session bound holds for every session free
of tracked-state carry-over - here, any single session driven from a fresh
agent by updates at non-decreasing instants with the activity condition
continuously true, closed at any not-earlier instant: end_time is at least
start_time and the accumulated bad-posture duration is at most
end_time - start_time. -/
theorem C1_amended_session_duration_bound (t0 tEnd : ℚ) (tr : List UpdateIn)
    (hch : List.Chain (fun a b => a ≤ b) t0 (tr.map UpdateIn.now ++ [tEnd]))
    (hall : ∀ u ∈ tr, u.shouldActive = true) :
    closedOk (endSession (runAgent (initAgent t0) tr).1 tEnd).closedSessions := by
  cases tr with
  | nil =>
    intro c hc
    simp [runAgent, endSession, initAgent] at hc
  | cons u us =>
    simp only [List.map_cons, List.cons_append, List.chain_cons] at hch
    obtain ⟨ht0, hch'⟩ := hch
    have hu : u.shouldActive = true := hall u (List.mem_cons_self u us)
    have hestab := processPostureUpdate_establish (initAgent t0) u.now
      u.metrics u.violations rfl rfl rfl ht0
    have hrun : (runAgent (initAgent t0) (u :: us)).1 =
        (runAgent (processPostureUpdate (initAgent t0) u.now u.metrics
          u.violations u.shouldActive).1 us).1 := by
      simp [runAgent]
    have hfin := runAgent_activeInv us
      (processPostureUpdate (initAgent t0) u.now u.metrics u.violations true).1
      u.now tEnd hestab.1 hch'
      (fun x hx => hall x (List.mem_cons_of_mem u hx))
    rw [hrun, hu]
    refine endSession_closedOk _ tEnd hfin.1 ?_
    rw [hfin.2, hestab.2]
    intro c hc
    simp [initAgent] at hc

/-- Witness for the amended C1: a fresh agent at 0, one BAD update at 1 and
one GOOD update at 4, closed at 6, satisfies the bound on its single closed
session. -/
theorem C1_amended_session_duration_bound_witness :
    closedOk (endSession (runAgent (initAgent 0)
        [⟨1, mZero, vBadFrame, true⟩, ⟨4, mZero, vGoodFrame, true⟩]).1
      6).closedSessions :=
  C1_amended_session_duration_bound 0 6
    [⟨1, mZero, vBadFrame, true⟩, ⟨4, mZero, vGoodFrame, true⟩]
    (by
      refine List.Chain.cons (by norm_num) ?_
      refine List.Chain.cons (by norm_num) ?_
      exact List.Chain.cons (by norm_num) List.Chain.nil)
    (by
      intro u hu
      simp only [List.mem_cons, List.not_mem_nil, or_false] at hu
      rcases hu with rfl | rfl <;> rfl)

/-! ## Claim C2: a presence-true update racing the expiring countdown

The final guard before lock_pc (line 158 of pc_lock_manager.py) reads
lock_timer_active and notification_shown, not person_present.  A presence
update that runs to completion clears lock_timer_active and so prevents the
lock; but an update whose trailing reset statement has not yet executed when
the guard is evaluated does not, even though person_present was already set
true before the countdown expired. -/

/-- The actions driving one full absence cycle to mid-countdown: enabled,
person seen at 0, absence reported at 1 (absence threshold 10), wait polls at
5 and 11 (notification shown at 11), countdown poll at 12. -/
def c2pre : List LockAct :=
  [.enable true, .presence 0 true false, .presence 1 false false,
   .tick 5 false, .tick 11 false, .tick 12 false]

set_option maxRecDepth 80000 in
/-- Counterexample to claim C2: from mid-countdown (countdown started at 11,
timeout 30, so expiry at 41), a presence-true update begins at instant 40 -
before the expiry - and sets person_present; the timer thread's final check
then runs at 41 and still invokes lock_pc, because the update's trailing
timer-reset statement has not executed yet.  The presence signal was
reported true before the countdown expired, yet the lock actuator fired. -/
theorem C2_counterexample :
    (runLock {} c2pre).phase = .countdown ∧
    (runLock {} c2pre).countdownStart = 11 ∧
    (runLock {} c2pre).mgr.lockTimeout = 30 ∧
    ((40 : ℚ) < 11 + 30) ∧
    (runLock {} (c2pre ++ [.presenceSetHalf 40 false])).mgr.personPresent
      = true ∧
    (runLock {} (c2pre ++ [.presenceSetHalf 40 false, .tick 41 false,
        .presenceResetHalf])).mgr.lockCalls = 1 := by
  refine ⟨?_, ?_, ?_, by norm_num, ?_, ?_⟩ <;>
    norm_num +decide [runLock, c2pre, lockStep, updatePersonPresence,
      presenceTrueSetHalf, presenceTrueResetHalf, timerTick,
      acknowledgePresence, setEnabled, startAbsenceTimer,
      checkWindowsLockStatus, resetTimer, closeNotification, lockPc,
      threadExit]

theorem checkWindowsLockStatus_frame (m : LockMgr) (ext : Bool) :
    (checkWindowsLockStatus m ext).lockCalls = m.lockCalls ∧
    (checkWindowsLockStatus m ext).lastPersonDetectedState =
      m.lastPersonDetectedState ∧
    ((checkWindowsLockStatus m ext).lockTimerActive = true →
      m.lockTimerActive = true) := by
  unfold checkWindowsLockStatus
  by_cases hA : m.lockTimerActive = true <;> split_ifs <;>
    simp_all [resetTimer, closeNotification]

theorem lockStep_inactive_no_lock (sys : LockSys) (a : LockAct)
    (hin : sys.mgr.lockTimerActive = false) (hna : ¬ a.reportsAbsent) :
    (lockStep sys a).mgr.lockTimerActive = false ∧
    (lockStep sys a).mgr.lockCalls = sys.mgr.lockCalls := by
  cases a with
  | presence now det ext =>
    have hdet : det = true := by
      cases det
      · exact absurd rfl hna
      · rfl
    subst hdet
    unfold lockStep updatePersonPresence
    have hf := checkWindowsLockStatus_frame sys.mgr ext
    have hact : (checkWindowsLockStatus sys.mgr ext).lockTimerActive = false := by
      cases hc : (checkWindowsLockStatus sys.mgr ext).lockTimerActive
      · rfl
      · exact absurd (hf.2.2 hc) (by rw [hin]; simp)
    by_cases hdeb : (checkWindowsLockStatus sys.mgr ext).lastPersonDetectedState
        = some true
    · simp [hdeb, hact, hf.1]
    · simp [hdeb, hact, hf.1]
  | presenceSetHalf now ext =>
    unfold lockStep presenceTrueSetHalf
    have hf := checkWindowsLockStatus_frame sys.mgr ext
    have hact : (checkWindowsLockStatus sys.mgr ext).lockTimerActive = false := by
      cases hc : (checkWindowsLockStatus sys.mgr ext).lockTimerActive
      · rfl
      · exact absurd (hf.2.2 hc) (by rw [hin]; simp)
    by_cases hdeb : (checkWindowsLockStatus sys.mgr ext).lastPersonDetectedState
        = some true
    · simp [hdeb, hact, hf.1]
    · simp [hdeb, hact, hf.1]
  | presenceResetHalf =>
    unfold lockStep presenceTrueResetHalf
    simp [hin]
  | tick now ext =>
    unfold lockStep timerTick
    cases hp : sys.phase <;>
      simp [hp, hin, threadExit, closeNotification]
  | acknowledge =>
    unfold lockStep acknowledgePresence
    simp [resetTimer, closeNotification]
  | enable b =>
    unfold lockStep setEnabled
    cases b <;> simp [resetTimer, closeNotification, hin]

/-- Claim C2, amended: a presence-true update that runs to completion clears
lock_timer_active (its trailing reset statement), and from any state with
lock_timer_active false no lock is ever issued as long as no further
person-absent report occurs - so a presence-true update completed before the
final pre-lock flag check prevents lock() for that cycle.  The guard
re-checked immediately before lock_pc is lock_timer_active and
notification_shown, not the presence flag, so an update whose reset half is
still pending at that check does not prevent the lock (see the
counterexample). -/
theorem C2_amended_completed_presence_update_prevents_lock (sys : LockSys)
    (now : ℚ) (ext : Bool)
    (hdeb : sys.mgr.lastPersonDetectedState ≠ some true) :
    (updatePersonPresence sys now true ext).mgr.lockTimerActive = false ∧
    ∀ (acts : List LockAct) (sys' : LockSys),
      sys'.mgr.lockTimerActive = false →
      (∀ a ∈ acts, ¬ a.reportsAbsent) →
      (runLock sys' acts).mgr.lockCalls = sys'.mgr.lockCalls := by
  constructor
  · unfold updatePersonPresence
    have hf := checkWindowsLockStatus_frame sys.mgr ext
    have hdeb' : ¬ (checkWindowsLockStatus sys.mgr ext).lastPersonDetectedState
        = some true := by rw [hf.2.1]; exact hdeb
    by_cases hact : (checkWindowsLockStatus sys.mgr ext).lockTimerActive = true
    · simp [hdeb', hact, resetTimer, closeNotification]
    · simp only [Bool.not_eq_true] at hact
      simp [hdeb', hact]
  · intro acts
    induction acts with
    | nil => intro sys' h1 _; simp [runLock]
    | cons a as ih =>
      intro sys' h1 hna
      have hstep := lockStep_inactive_no_lock sys' a h1
        (hna a (List.mem_cons_self a as))
      have h2 := ih (lockStep sys' a) hstep.1
        (fun x hx => hna x (List.mem_cons_of_mem a hx))
      calc (runLock sys' (a :: as)).mgr.lockCalls
          = (runLock (lockStep sys' a) as).mgr.lockCalls := by simp [runLock]
        _ = (lockStep sys' a).mgr.lockCalls := h2
        _ = sys'.mgr.lockCalls := hstep.2

set_option maxRecDepth 80000 in
/-- Witness for the amended C2: from the concrete mid-countdown state, a
presence-true update at 40 that runs to completion clears the timer flag,
and the subsequent expiry tick at 41 issues no lock. -/
theorem C2_amended_completed_presence_update_prevents_lock_witness :
    (updatePersonPresence (runLock {} c2pre) 40 true false).mgr.lockTimerActive
      = false ∧
    (runLock (updatePersonPresence (runLock {} c2pre) 40 true false)
        [.tick 41 false]).mgr.lockCalls =
      (updatePersonPresence (runLock {} c2pre) 40 true false).mgr.lockCalls := by
  have h := C2_amended_completed_presence_update_prevents_lock
    (runLock {} c2pre) 40 false
    (by
      norm_num +decide [runLock, c2pre, lockStep, updatePersonPresence,
        presenceTrueSetHalf, presenceTrueResetHalf, timerTick,
        acknowledgePresence, setEnabled, startAbsenceTimer,
        checkWindowsLockStatus, resetTimer, closeNotification, lockPc,
        threadExit])
  refine ⟨h.1, h.2 [.tick 41 false] _ h.1 ?_⟩
  intro a ha
  simp only [List.mem_singleton] at ha
  subst ha
  simp [LockAct.reportsAbsent]

/-! ## Claim C9: reconciliation with the external lock state

The absence-wait loop polls check_windows_lock_status every iteration, and
every presence update polls it on entry; but the acknowledgment-countdown
loop does not poll at all, so an external lock during the countdown goes
unnoticed until a presence update arrives. -/

/-- The actions reaching the acknowledgment countdown: enabled, person seen
at 0, absence at 1, wait poll at 11 elapsing the 10 s threshold (countdown
starts at 11 with timeout 30). -/
def c9pre : List LockAct :=
  [.enable true, .presence 0 true false, .presence 1 false false,
   .tick 11 false]

set_option maxRecDepth 80000 in
/-- Counterexample to claim C9: in the countdown state, a full poll tick at
which the external lock query would report locked (ext = true) changes
nothing - the internal belief stays unlocked and the countdown stays active,
so an externally taken lock is not reconciled within one poll interval. -/
theorem C9_counterexample :
    (runLock {} c9pre).phase = .countdown ∧
    (runLock {} c9pre).mgr.lockTimerActive = true ∧
    (runLock {} c9pre).mgr.notificationShown = true ∧
    (runLock {} c9pre).mgr.pcLocked = false ∧
    timerTick (runLock {} c9pre) 12 true = runLock {} c9pre := by
  refine ⟨?_, ?_, ?_, ?_, ?_⟩ <;>
    norm_num +decide [runLock, c9pre, lockStep, updatePersonPresence,
      presenceTrueSetHalf, presenceTrueResetHalf, timerTick,
      acknowledgePresence, setEnabled, startAbsenceTimer,
      checkWindowsLockStatus, resetTimer, closeNotification, lockPc,
      threadExit]

/-- Internal mutual exclusion: the pc_locked belief and a running timer are
never both set. -/
def lockSafe (m : LockMgr) : Prop :=
  m.pcLocked = false ∨ m.lockTimerActive = false

theorem checkWindowsLockStatus_lockSafe (m : LockMgr) (ext : Bool)
    (h : lockSafe m) :
    lockSafe (checkWindowsLockStatus m ext) := by
  unfold checkWindowsLockStatus
  by_cases hA : m.lockTimerActive = true <;> split_ifs <;>
    simp_all [lockSafe, resetTimer, closeNotification]

theorem checkWindowsLockStatus_ext_true (m : LockMgr) :
    (checkWindowsLockStatus m true).pcLocked = true ∧
    (lockSafe m → (checkWindowsLockStatus m true).lockTimerActive = false) := by
  unfold checkWindowsLockStatus
  by_cases hL : m.pcLocked = true
  · have : ¬ (True ∧ m.pcLocked = false) := by simp [hL]
    constructor
    · split_ifs <;> simp_all [resetTimer, closeNotification]
    · intro hs
      rcases hs with hs | hs
      · rw [hL] at hs; exact absurd hs (by simp)
      · split_ifs <;> simp_all [resetTimer, closeNotification]
  · simp only [Bool.not_eq_true] at hL
    by_cases hA : m.lockTimerActive = true <;>
      split_ifs <;> simp_all [resetTimer, closeNotification]

set_option maxHeartbeats 1000000 in
/-- Claim C9, amended: the internal mutual exclusion between pc_locked and a
running timer is preserved by every atomic action; an absence-wait poll tick
with the external query reporting locked sets the belief and cancels the
timer within that tick; and any presence update entered while the external
query reports locked leaves the timer cancelled.  During the acknowledgment
countdown, however, the external lock status is not polled, so an external
lock is only observed once a presence update arrives (see the
counterexample). -/
theorem C9_amended_external_lock_reconciliation (sys : LockSys) (now : ℚ)
    (a : LockAct) :
    (lockSafe sys.mgr → lockSafe (lockStep sys a).mgr) ∧
    (sys.phase = .waiting → sys.mgr.lockTimerActive = true →
      now - sys.startTime < sys.mgr.personAbsentThreshold →
      (timerTick sys now true).mgr.pcLocked = true ∧
      (timerTick sys now true).mgr.lockTimerActive = false) ∧
    (∀ det : Bool, lockSafe sys.mgr →
      (updatePersonPresence sys now det true).mgr.lockTimerActive = false) := by
  refine ⟨?_, ?_, ?_⟩
  · intro hs
    cases a with
    | presence now' det ext =>
      unfold lockStep updatePersonPresence
      have hc := checkWindowsLockStatus_lockSafe sys.mgr ext hs
      by_cases hdeb : (checkWindowsLockStatus sys.mgr ext).lastPersonDetectedState
          = some det
      · simpa [hdeb] using hc
      · cases det
        · by_cases hpp : (checkWindowsLockStatus sys.mgr ext).personPresent = true
          · simp only [hdeb, if_neg, hpp]
            unfold startAbsenceTimer
            rcases hc with hc | hc <;>
              split_ifs <;>
              simp_all [lockSafe]
          · simp only [Bool.not_eq_true] at hpp
            rcases hc with hc | hc <;> simp_all [lockSafe, hdeb, hpp]
        · rcases hc with hc | hc <;>
            by_cases hA : (checkWindowsLockStatus sys.mgr ext).lockTimerActive = true <;>
            simp_all [lockSafe, hdeb, resetTimer, closeNotification]
    | presenceSetHalf now' ext =>
      unfold lockStep presenceTrueSetHalf
      have hc := checkWindowsLockStatus_lockSafe sys.mgr ext hs
      by_cases hdeb : (checkWindowsLockStatus sys.mgr ext).lastPersonDetectedState
          = some true
      · simpa [hdeb] using hc
      · simp [lockSafe, hdeb]
    | presenceResetHalf =>
      unfold lockStep presenceTrueResetHalf
      by_cases hA : sys.mgr.lockTimerActive = true <;>
        simp_all [lockSafe, resetTimer, closeNotification]
    | tick now' ext =>
      unfold lockStep timerTick
      cases hp : sys.phase
      · simpa [hp] using hs
      · have hc := checkWindowsLockStatus_lockSafe sys.mgr ext hs
        by_cases h1 : now' - sys.startTime < sys.mgr.personAbsentThreshold
            ∧ sys.mgr.lockTimerActive = true
        · by_cases h2 : (checkWindowsLockStatus sys.mgr ext).personPresent = true
              ∨ (checkWindowsLockStatus sys.mgr ext).pcLocked = true
          · simp [hp, h1, h2, threadExit, closeNotification, lockSafe]
          · simp only [hp, if_pos h1, if_neg h2]
            exact hc
        · by_cases h2 : sys.mgr.lockTimerActive = false
              ∨ sys.mgr.personPresent = true ∨ sys.mgr.pcLocked = true
          · simp [hp, h1, h2, threadExit, closeNotification, lockSafe]
          · push_neg at h2
            have hpc : sys.mgr.pcLocked = false := by
              cases hc : sys.mgr.pcLocked
              · rfl
              · exact absurd hc h2.2.2
            have hactT : sys.mgr.lockTimerActive = true := by
              cases hc : sys.mgr.lockTimerActive
              · exact absurd hc h2.1
              · rfl
            have hAF : ¬ now' - sys.startTime < sys.mgr.personAbsentThreshold :=
              fun hA => h1 ⟨hA, hactT⟩
            simp [hp, hAF, h2.2.1, h2.2.2, hpc, hactT, threadExit,
              closeNotification, lockSafe]
      · by_cases h1 : now' - sys.countdownStart < sys.mgr.lockTimeout
            ∧ sys.mgr.lockTimerActive = true ∧ sys.mgr.notificationShown = true
        · simpa [hp, h1] using hs
        · by_cases h2 : sys.mgr.lockTimerActive = true
              ∧ sys.mgr.notificationShown = true
          · have hA : ¬ now' - sys.countdownStart < sys.mgr.lockTimeout :=
              fun hA => h1 ⟨hA, h2⟩
            simp [hp, hA, h2, threadExit, closeNotification, lockPc,
              resetTimer, lockSafe]
          · simp [hp, h1, h2, threadExit, closeNotification, lockSafe]
    | acknowledge =>
      unfold lockStep acknowledgePresence
      simp [lockSafe, resetTimer, closeNotification]
    | enable b =>
      unfold lockStep setEnabled
      cases b <;> simp_all [lockSafe, resetTimer, closeNotification]
  · intro hp hA h1
    unfold timerTick
    rw [hp]
    have hcond : now - sys.startTime < sys.mgr.personAbsentThreshold
        ∧ sys.mgr.lockTimerActive = true := ⟨h1, hA⟩
    rw [if_pos hcond]
    have he := checkWindowsLockStatus_ext_true sys.mgr
    by_cases h2 : (checkWindowsLockStatus sys.mgr true).personPresent = true
        ∨ (checkWindowsLockStatus sys.mgr true).pcLocked = true
    · simp [h2, threadExit, closeNotification, he.1]
    · exact absurd (Or.inr he.1) h2
  · intro det hs
    unfold updatePersonPresence
    have he := checkWindowsLockStatus_ext_true sys.mgr
    have hact : (checkWindowsLockStatus sys.mgr true).lockTimerActive = false :=
      he.2 hs
    by_cases hdeb : (checkWindowsLockStatus sys.mgr true).lastPersonDetectedState
        = some det
    · simp [hdeb, hact]
    · cases det
      · by_cases hpp : (checkWindowsLockStatus sys.mgr true).personPresent = true
        · simp only [hdeb, if_neg, hpp]
          unfold startAbsenceTimer
          split_ifs <;> simp_all [he.1]
        · simp only [Bool.not_eq_true] at hpp
          simp [hdeb, hpp, hact]
      · simp [hdeb, hact]

set_option maxRecDepth 80000 in
/-- Witness for the amended C9: in the concrete absence-wait state (timer
started at 1, threshold 10), the poll tick at 5 with the external query
reporting locked sets pc_locked and cancels the timer; and a presence-false
update entered under an external lock leaves the timer cancelled. -/
theorem C9_amended_external_lock_reconciliation_witness :
    (timerTick (runLock {} [.enable true, .presence 0 true false,
        .presence 1 false false]) 5 true).mgr.pcLocked = true ∧
    (timerTick (runLock {} [.enable true, .presence 0 true false,
        .presence 1 false false]) 5 true).mgr.lockTimerActive = false ∧
    (updatePersonPresence (runLock {} [.enable true, .presence 0 true false,
        .presence 1 false false]) 5 false true).mgr.lockTimerActive = false := by
  have h := C9_amended_external_lock_reconciliation
    (runLock {} [.enable true, .presence 0 true false,
      .presence 1 false false]) 5 .acknowledge
  have hw := h.2.1
    (by
      norm_num +decide [runLock, lockStep, updatePersonPresence,
        presenceTrueSetHalf, presenceTrueResetHalf, timerTick,
        acknowledgePresence, setEnabled, startAbsenceTimer,
        checkWindowsLockStatus, resetTimer, closeNotification, lockPc,
        threadExit])
    (by
      norm_num +decide [runLock, lockStep, updatePersonPresence,
        presenceTrueSetHalf, presenceTrueResetHalf, timerTick,
        acknowledgePresence, setEnabled, startAbsenceTimer,
        checkWindowsLockStatus, resetTimer, closeNotification, lockPc,
        threadExit])
    (by
      norm_num +decide [runLock, lockStep, updatePersonPresence,
        presenceTrueSetHalf, presenceTrueResetHalf, timerTick,
        acknowledgePresence, setEnabled, startAbsenceTimer,
        checkWindowsLockStatus, resetTimer, closeNotification, lockPc,
        threadExit])
  refine ⟨hw.1, hw.2, ?_⟩
  refine h.2.2 false ?_
  left
  norm_num +decide [runLock, lockStep, updatePersonPresence,
    presenceTrueSetHalf, presenceTrueResetHalf, timerTick,
    acknowledgePresence, setEnabled, startAbsenceTimer,
    checkWindowsLockStatus, resetTimer, closeNotification, lockPc,
    threadExit]

end PostureDetection
